import Mathlib

/-!
# LookingGlass: HTTP handlers of `cmd/web`

A shallow embedding of `cmd/web/handlers.go` and `cmd/web/helpers.go`.

Every handler is a function from the collaborators it talks to (`Env`), the
request (`Request`) and the state of the outside world (`World`: the store,
the values of the request's session and the log of collaborator calls made so
far) to the world after the handler has run.  The log lists, in order, each
call the handler makes on a collaborator, with the arguments it passes.

Go strings are Lean strings and `len` is the UTF-8 byte size; a Go `error` is
its message, `nil` is `none`.
-/

namespace LookingGlass

/-! ## Data model -/

/-- A Go `error` value, represented by its message (`err.Error()`). -/
abbrev GoError := String

/-- Go's `len` on a string: the number of bytes. -/
def len (s : String) : Nat := s.utf8ByteSize

/-- The user record of the store, with the fields the handlers read. -/
structure User where
  ID : Int
  Email : String
  HashedPassword : String
deriving DecidableEq, Repr, Inhabited

/-- The password-reset record of the store. -/
structure PasswordReset where
  HashedToken : String
  UserID : Int
  Expiry : Nat
deriving DecidableEq, Repr, Inhabited

/-- Modelled from the spec: the type `validator.Validator` (package
`internal/validator`, not among the sources).  It holds the field-level
errors of a form, here the failed checks in the order they were made. -/
structure Validator where
  FieldErrors : List (String × String) := []
deriving DecidableEq, Repr, Inhabited

/-- Modelled from the spec: `Validator.CheckField(ok, key, message)` records
the message on field `key` when the check `ok` fails. -/
def Validator.CheckField (v : Validator) (ok : Bool) (key message : String) : Validator :=
  if ok then v else { FieldErrors := v.FieldErrors ++ [(key, message)] }

/-- Modelled from the spec: `Validator.HasErrors()` tells whether a check
has failed. -/
def Validator.HasErrors (v : Validator) : Bool := !v.FieldErrors.isEmpty

/-- The anonymous form struct of `signup` and `login`. -/
structure CredentialsForm where
  Email : String := ""
  Password : String := ""
  Validator : Validator := {}
deriving DecidableEq, Repr, Inhabited

/-- The anonymous form struct of `forgottenPassword`. -/
structure EmailForm where
  Email : String := ""
  Validator : Validator := {}
deriving DecidableEq, Repr, Inhabited

/-- The anonymous form struct of `passwordReset`. -/
structure NewPasswordForm where
  NewPassword : String := ""
  Validator : Validator := {}
deriving DecidableEq, Repr, Inhabited

/-- The anonymous form struct of `runHandler`. -/
structure RunForm where
  Command : String := ""
  Target : String := ""
deriving DecidableEq, Repr, Inhabited

/-- The values of type `any` that the handlers put in a map. -/
inductive Value where
  | str (s : String)
  | int (n : Int)
  | bool (b : Bool)
  | user (u : User)
  | credentialsForm (f : CredentialsForm)
  | emailForm (f : EmailForm)
  | newPasswordForm (f : NewPasswordForm)
deriving DecidableEq, Repr, Inhabited

/-- A Go map with string keys (`map[string]any`, `session.Values`), as an
association list holding at most the entries set. -/
abbrev GoMap := List (String × Value)

/-- The Go expression `m[k]`, with its presence flag. -/
def mapGet (m : GoMap) (k : String) : Option Value := m.lookup k

/-- The Go statement `delete(m, k)`. -/
def mapDelete (m : GoMap) (k : String) : GoMap := m.filter (fun p => p.1 != k)

/-- The Go statement `m[k] = v`. -/
def mapSet (m : GoMap) (k : String) (v : Value) : GoMap := (k, v) :: mapDelete m k

/-- The type assertion `v.(string)` on a map entry: the string and `ok`. -/
def assertString : Option Value → String × Bool
  | some (.str s) => (s, true)
  | _ => ("", false)

/-- An `exec.Cmd`: the program, the argument vector (program first) and the
deadline of its context, absent when the command has no context. -/
structure Cmd where
  Path : String
  Args : List String
  ctx : Option Nat
deriving DecidableEq, Repr, Inhabited

/-- The function `exec.Command(name, arg...)` of the Go library: the command
has no context. -/
def exec_Command (name : String) (arg : List String) : Cmd :=
  { Path := name, Args := name :: arg, ctx := none }

/-- The behaviour of a started process: the combined output it writes, the
error of its exit (`none` for exit status 0), the time at which it exits
(`none` for a process that never exits by itself) and the time at which the
pipe that carries its output reaches end of file, that is, when the process and
every descendant that inherited the pipe have closed it (`none` when one of
them keeps it open for ever).  A process that fails to start has an error,
empty output, and exits with its pipe closed at once. -/
structure Proc where
  output : String
  err : Option GoError
  exitAt : Option Nat
  pipeEOF : Option Nat
deriving DecidableEq, Repr, Inhabited

/-- The method `cmd.CombinedOutput()` of the Go library.  It sets `Stdout` and
`Stderr` to a buffer, so the library copies the output through a pipe; `Run`
waits for the process to exit and then, `WaitDelay` being zero, for end of
file on that pipe.  A command with a context is killed at the deadline; a
command without one is waited for as long as it runs.  The result `none` says
that the call never returns. -/
def CombinedOutput (cmd : Cmd) (p : Proc) : Option (String × Option GoError) :=
  match p.pipeEOF with
  | none => none
  | some _ =>
    match cmd.ctx, p.exitAt with
    | none, none => none
    | none, some _ => some (p.output, p.err)
    | some _, none => some (p.output, some "signal: killed")
    | some d, some t =>
      if t ≤ d then some (p.output, p.err) else some (p.output, some "signal: killed")

/-- A call made by a handler on one of its collaborators. -/
inductive Call where
  | GetUserByEmail (email : String)
  | InsertUser (email hashedPassword : String)
  | UpdateUserHashedPassword (id : Int) (hashedPassword : String)
  | InsertPasswordReset (hashedToken : String) (userID : Int) (ttl : Nat)
  | GetPasswordReset (hashedToken : String)
  | DeletePasswordResets (userID : Int)
  | SessionGet
  | SessionSave (values : GoMap)
  | TokenNew
  | MailerSend (recipient : String) (data : GoMap) (tmpl : String)
  | Exec (cmd : Cmd)
  | Page (status : Nat) (data : GoMap) (tmpl : String)
  | badRequest (err : Option GoError)
  | serverError (err : GoError)
  | Redirect (url : String) (code : Nat)
deriving DecidableEq, Repr, Inhabited

/-- The request, as far as the handlers look at it. -/
structure Request where
  /-- The field `r.Method`. -/
  Method : String
  /-- The error of `request.DecodePostForm(r, &form)`. -/
  decodeErr : Option GoError := none
  /-- The values of the posted form, by field name. -/
  PostForm : List (String × String) := []
  /-- The URL parameter `plaintextToken` of the route. -/
  plaintextToken : String := ""
  /-- The value of `nosurf.Token(r)`. -/
  CSRFToken : String := ""
  /-- The result of `contextGetAuthenticatedUser(r)`. -/
  AuthenticatedUser : Option User := none

/-- The methods of the store `app.db` (package `internal/database`, not among
the sources), over the states `σ` of the store. -/
structure DB (σ : Type) where
  GetUserByEmail : σ → String → User × Bool × Option GoError
  InsertUser : σ → String → String → (Int × Option GoError) × σ
  UpdateUserHashedPassword : σ → Int → String → Option GoError × σ
  InsertPasswordReset : σ → String → Int → Nat → Option GoError × σ
  GetPasswordReset : σ → String → PasswordReset × Bool × Option GoError
  DeletePasswordResets : σ → Int → Option GoError × σ

/-- The collaborators of the handlers, over a store with states `σ`.  These
packages are not among the sources; a handler is verified for all of them. -/
structure Env (σ : Type) where
  /-- The store `app.db`. -/
  db : DB σ
  /-- The error of `app.sessionStore.Get(r, "session")`. -/
  sessionGetErr : Option GoError
  /-- The error of `session.Save(r, w)`, given the values saved. -/
  sessionSaveErr : GoMap → Option GoError
  /-- The error of `response.Page(w, status, data, tmpl)`. -/
  pageErr : Nat → GoMap → String → Option GoError
  /-- The error of `app.mailer.Send(recipient, data, tmpl)`. -/
  mailerSendErr : String → GoMap → String → Option GoError
  /-- The call `validator.Matches(s, validator.RgxEmail)`. -/
  MatchesRgxEmail : String → Bool
  /-- The list `password.CommonPasswords`. -/
  CommonPasswords : List String
  /-- The call `password.Hash(plaintext)`. -/
  passwordHash : String → String × Option GoError
  /-- The call `password.Matches(plaintext, hash)`. -/
  passwordMatches : String → String → Bool × Option GoError
  /-- The value returned by `token.New()` during this request. -/
  tokenNew : String
  /-- The call `token.Hash(plaintext)`. -/
  tokenHash : String → String
  /-- The call `validator.SafeHostnameOrIP(target)`. -/
  SafeHostnameOrIP : String → Bool
  /-- The process that the operating system starts for a command. -/
  spawn : Cmd → Proc
  /-- The value of `version.Get()`. -/
  version : String
  /-- The field `app.config.baseURL`. -/
  baseURL : String

/-- The world a handler acts on. -/
structure World (σ : Type) where
  /-- The state of the store `app.db`. -/
  store : σ
  /-- The map `session.Values` of the session of the request. -/
  session : GoMap
  /-- The calls made on collaborators so far, oldest first. -/
  calls : List Call

/-- Record a call in the log. -/
def World.log {σ : Type} (w : World σ) (c : Call) : World σ :=
  { w with calls := w.calls ++ [c] }

/-- The outcome of a handler that may wait for a subprocess: the world it
leaves and whether the handler has returned. -/
structure Outcome (σ : Type) where
  world : World σ
  returned : Bool

/-! ## Constants of the Go library -/

def StatusOK : Nat := 200
def StatusSeeOther : Nat := 303
def StatusBadRequest : Nat := 400
def StatusUnprocessableEntity : Nat := 422
def StatusInternalServerError : Nat := 500
def MethodGet : String := "GET"
def MethodPost : String := "POST"
/-- The constant `time.Hour`, in nanoseconds. -/
def Hour : Nat := 3600 * 1000000000

/-! ## helpers.go -/

/-- The method `newTemplateData` of helpers.go. -/
def newTemplateData {σ : Type} (env : Env σ) (r : Request) : GoMap :=
  let data : GoMap := mapSet (mapSet [] "CSRFToken" (.str r.CSRFToken)) "Version" (.str env.version)
  match r.AuthenticatedUser with
  | some authenticatedUser => mapSet data "AuthenticatedUser" (.user authenticatedUser)
  | none => data

/-- The method `newEmailData` of helpers.go. -/
def newEmailData {σ : Type} (env : Env σ) : GoMap :=
  mapSet [] "BaseURL" (.str env.baseURL)

/-! ## handlers.go -/

/-- The value of a posted form field; a field that was not posted decodes to
the empty string. -/
def formValue (r : Request) (name : String) : String :=
  (r.PostForm.lookup name).getD ""

/-- The recurring statement
`err := response.Page(w, status, data, tmpl); if err != nil { app.serverError(w, r, err) }`. -/
def renderPage {σ : Type} (env : Env σ) (w : World σ) (status : Nat) (data : GoMap)
    (tmpl : String) : World σ :=
  let w1 := w.log (.Page status data tmpl)
  match env.pageErr status data tmpl with
  | some err => w1.log (.serverError err)
  | none => w1

/-- The map literal `validCommands` of `runHandler`. -/
def validCommands : List (String × List String) :=
  [("ping", ["-c", "4"]),
   ("traceroute", []),
   ("dig", ["+short"]),
   ("whois", []),
   ("mtr", ["--report-wide", "-c", "4"])]

/-- The handler `runHandler`. -/
def runHandler {σ : Type} (env : Env σ) (r : Request) (w : World σ) : Outcome σ :=
  if r.Method = MethodGet then
    let data := newTemplateData env r
    ⟨renderPage env w StatusOK data "pages/lookingglass.tmpl", true⟩
  else if r.Method = MethodPost then
    let err := r.decodeErr
    if err.isSome then
      ⟨w.log (.badRequest err), true⟩
    else
      let form : RunForm := { Command := formValue r "command", Target := formValue r "target" }
      match validCommands.lookup form.Command with
      | none => ⟨w.log (.badRequest err), true⟩
      | some args =>
        if !env.SafeHostnameOrIP form.Target then
          ⟨w.log (.badRequest err), true⟩
        else
          let args := args ++ [form.Target]
          let cmd := exec_Command form.Command args
          let w1 := w.log (.Exec cmd)
          match CombinedOutput cmd (env.spawn cmd) with
          | none => ⟨w1, false⟩
          | some (output, err) =>
            let result := match err with
              | some e => output ++ "\n\nError: " ++ e
              | none => output
            let data := mapSet (newTemplateData env r) "Output" (.str result)
            ⟨renderPage env w1 StatusOK data "pages/lookingglass.tmpl", true⟩
  else
    ⟨w, true⟩

/-- Modelled from the spec: `validator.NotIn(value, list...)` (package
`internal/validator`, not among the sources) holds when the value is not
present in the list. -/
def NotIn (value : String) (list : List String) : Bool := !list.contains value

/-- The handler `signup`. -/
def signup {σ : Type} (env : Env σ) (r : Request) (w : World σ) : World σ :=
  let form : CredentialsForm := {}
  if r.Method = MethodGet then
    let data := mapSet (newTemplateData env r) "Form" (.credentialsForm form)
    renderPage env w StatusOK data "pages/signup.tmpl"
  else if r.Method = MethodPost then
    match r.decodeErr with
    | some err => w.log (.badRequest (some err))
    | none =>
      let form := { form with Email := formValue r "Email", Password := formValue r "Password" }
      let w := w.log (.GetUserByEmail form.Email)
      match env.db.GetUserByEmail w.store form.Email with
      | (_, _, some err) => w.log (.serverError err)
      | (_, found, none) =>
        let v := form.Validator
        let v := v.CheckField (form.Email != "") "Email" "Email is required"
        let v := v.CheckField (env.MatchesRgxEmail form.Email) "Email" "Must be a valid email address"
        let v := v.CheckField (!found) "Email" "Email is already in use"
        let v := v.CheckField (form.Password != "") "Password" "Password is required"
        let v := v.CheckField (decide (len form.Password ≥ 8)) "Password" "Password is too short"
        let v := v.CheckField (decide (len form.Password ≤ 72)) "Password" "Password is too long"
        let v := v.CheckField (NotIn form.Password env.CommonPasswords) "Password"
          "Password is too common"
        let form := { form with Validator := v }
        if form.Validator.HasErrors then
          let data := mapSet (newTemplateData env r) "Form" (.credentialsForm form)
          renderPage env w StatusUnprocessableEntity data "pages/signup.tmpl"
        else
          match env.passwordHash form.Password with
          | (_, some err) => w.log (.serverError err)
          | (hashedPassword, none) =>
            let w := w.log (.InsertUser form.Email hashedPassword)
            match env.db.InsertUser w.store form.Email hashedPassword with
            | ((_, some err), store) => ({ w with store := store }).log (.serverError err)
            | ((id, none), store) =>
              let w := { w with store := store }
              let w := w.log .SessionGet
              match env.sessionGetErr with
              | some err => w.log (.serverError err)
              | none =>
                let w := { w with session := mapSet w.session "userID" (.int id) }
                let w := w.log (.SessionSave w.session)
                match env.sessionSaveErr w.session with
                | some err => w.log (.serverError err)
                | none => w.log (.Redirect "/" StatusSeeOther)
  else
    w

/-- The handler `login`. -/
def login {σ : Type} (env : Env σ) (r : Request) (w : World σ) : World σ :=
  let form : CredentialsForm := {}
  if r.Method = MethodGet then
    let data := mapSet (newTemplateData env r) "Form" (.credentialsForm form)
    renderPage env w StatusOK data "pages/login.tmpl"
  else if r.Method = MethodPost then
    match r.decodeErr with
    | some err => w.log (.badRequest (some err))
    | none =>
      let form := { form with Email := formValue r "Email", Password := formValue r "Password" }
      let w := w.log (.GetUserByEmail form.Email)
      match env.db.GetUserByEmail w.store form.Email with
      | (_, _, some err) => w.log (.serverError err)
      | (user, found, none) =>
        let v := form.Validator
        let v := v.CheckField (form.Email != "") "Email" "Email is required"
        let v := v.CheckField found "Email" "Email address could not be found"
        let checked : Except GoError Validator :=
          if found then
            match env.passwordMatches form.Password user.HashedPassword with
            | (_, some err) => .error err
            | (passwordMatches, none) =>
              let v := v.CheckField (form.Password != "") "Password" "Password is required"
              .ok (v.CheckField passwordMatches "Password" "Password is incorrect")
          else
            .ok v
        match checked with
        | .error err => w.log (.serverError err)
        | .ok v =>
          let form := { form with Validator := v }
          if form.Validator.HasErrors then
            let data := mapSet (newTemplateData env r) "Form" (.credentialsForm form)
            renderPage env w StatusUnprocessableEntity data "pages/login.tmpl"
          else
            let w := w.log .SessionGet
            match env.sessionGetErr with
            | some err => w.log (.serverError err)
            | none =>
              let w := { w with session := mapSet w.session "userID" (.int user.ID) }
              let (redirectPath, ok) := assertString (mapGet w.session "redirectPathAfterLogin")
              let w := if ok then { w with session := mapDelete w.session "redirectPathAfterLogin" }
                else w
              let redirectPath := if ok then redirectPath else "/"
              let w := w.log (.SessionSave w.session)
              match env.sessionSaveErr w.session with
              | some err => w.log (.serverError err)
              | none => w.log (.Redirect redirectPath StatusSeeOther)
  else
    w

/-- The handler `logout`. -/
def logout {σ : Type} (env : Env σ) (_r : Request) (w : World σ) : World σ :=
  let w := w.log .SessionGet
  match env.sessionGetErr with
  | some err => w.log (.serverError err)
  | none =>
    let w := { w with session := mapDelete w.session "userID" }
    let w := w.log (.SessionSave w.session)
    match env.sessionSaveErr w.session with
    | some err => w.log (.serverError err)
    | none => w.log (.Redirect "/" StatusSeeOther)

/-- The handler `forgottenPassword`. -/
def forgottenPassword {σ : Type} (env : Env σ) (r : Request) (w : World σ) : World σ :=
  let form : EmailForm := {}
  if r.Method = MethodGet then
    let data := mapSet (newTemplateData env r) "Form" (.emailForm form)
    renderPage env w StatusOK data "pages/forgotten-password.tmpl"
  else if r.Method = MethodPost then
    match r.decodeErr with
    | some err => w.log (.badRequest (some err))
    | none =>
      let form := { form with Email := formValue r "Email" }
      let w := w.log (.GetUserByEmail form.Email)
      match env.db.GetUserByEmail w.store form.Email with
      | (_, _, some err) => w.log (.serverError err)
      | (user, found, none) =>
        let v := form.Validator
        let v := v.CheckField (form.Email != "") "Email" "Email is required"
        let v := v.CheckField (env.MatchesRgxEmail form.Email) "Email" "Must be a valid email address"
        let v := v.CheckField found "Email" "No matching email found"
        let form := { form with Validator := v }
        if form.Validator.HasErrors then
          let data := mapSet (newTemplateData env r) "Form" (.emailForm form)
          renderPage env w StatusUnprocessableEntity data "pages/forgotten-password.tmpl"
        else
          let w := w.log .TokenNew
          let plaintextToken := env.tokenNew
          let hashedToken := env.tokenHash plaintextToken
          let w := w.log (.InsertPasswordReset hashedToken user.ID (24 * Hour))
          match env.db.InsertPasswordReset w.store hashedToken user.ID (24 * Hour) with
          | (some err, store) => ({ w with store := store }).log (.serverError err)
          | (none, store) =>
            let w := { w with store := store }
            let data := mapSet (newEmailData env) "PlaintextToken" (.str plaintextToken)
            let w := w.log (.MailerSend user.Email data "forgotten-password.tmpl")
            match env.mailerSendErr user.Email data "forgotten-password.tmpl" with
            | some err => w.log (.serverError err)
            | none => w.log (.Redirect "/forgotten-password-confirmation" StatusSeeOther)
  else
    w

/-- The handler `passwordReset`. -/
def passwordReset {σ : Type} (env : Env σ) (r : Request) (w : World σ) : World σ :=
  let plaintextToken := r.plaintextToken
  let hashedToken := env.tokenHash plaintextToken
  let w := w.log (.GetPasswordReset hashedToken)
  match env.db.GetPasswordReset w.store hashedToken with
  | (_, _, some err) => w.log (.serverError err)
  | (passwordReset, found, none) =>
    if !found then
      let data := mapSet (newTemplateData env r) "InvalidLink" (.bool true)
      renderPage env w StatusUnprocessableEntity data "pages/password-reset.tmpl"
    else
      let form : NewPasswordForm := {}
      if r.Method = MethodGet then
        let data := mapSet (newTemplateData env r) "Form" (.newPasswordForm form)
        let data := mapSet data "PlaintextToken" (.str plaintextToken)
        renderPage env w StatusOK data "pages/password-reset.tmpl"
      else if r.Method = MethodPost then
        match r.decodeErr with
        | some err => w.log (.badRequest (some err))
        | none =>
          let form := { form with NewPassword := formValue r "NewPassword" }
          let v := form.Validator
          let v := v.CheckField (form.NewPassword != "") "NewPassword" "New password is required"
          let v := v.CheckField (decide (len form.NewPassword ≥ 8)) "NewPassword"
            "New password is too short"
          let v := v.CheckField (decide (len form.NewPassword ≤ 72)) "NewPassword"
            "New password is too long"
          let v := v.CheckField (NotIn form.NewPassword env.CommonPasswords) "NewPassword"
            "New password is too common"
          let form := { form with Validator := v }
          if form.Validator.HasErrors then
            let data := mapSet (newTemplateData env r) "Form" (.newPasswordForm form)
            let data := mapSet data "PlaintextToken" (.str plaintextToken)
            renderPage env w StatusUnprocessableEntity data "pages/password-reset.tmpl"
          else
            match env.passwordHash form.NewPassword with
            | (_, some err) => w.log (.serverError err)
            | (hashedPassword, none) =>
              let w := w.log (.UpdateUserHashedPassword passwordReset.UserID hashedPassword)
              match env.db.UpdateUserHashedPassword w.store passwordReset.UserID hashedPassword with
              | (some err, store) => ({ w with store := store }).log (.serverError err)
              | (none, store) =>
                let w := { w with store := store }
                let w := w.log (.DeletePasswordResets passwordReset.UserID)
                match env.db.DeletePasswordResets w.store passwordReset.UserID with
                | (some err, store) => ({ w with store := store }).log (.serverError err)
                | (none, store) =>
                  ({ w with store := store }).log
                    (.Redirect "/password-reset-confirmation" StatusSeeOther)
      else
        w

/-! ## Observations on the log of calls -/

/-- The commands started as subprocesses, in order. -/
def execCalls (cs : List Call) : List Cmd :=
  cs.filterMap (fun c => match c with | .Exec cmd => some cmd | _ => none)

/-- The pages handed to the renderer, in order. -/
def pageCalls (cs : List Call) : List (Nat × GoMap × String) :=
  cs.filterMap (fun c => match c with | .Page st d t => some (st, d, t) | _ => none)

/-- Modelled from the spec: the HTTP status that a call writes.  The methods
`app.badRequest` and `app.serverError` are not among the sources; by the spec
they answer 400 and 500. -/
def Call.status : Call → Option Nat
  | .Page status _ _ => some status
  | .badRequest _ => some StatusBadRequest
  | .serverError _ => some StatusInternalServerError
  | .Redirect _ code => some code
  | _ => none

/-- The HTTP statuses written by the calls of a log, in order. -/
def responses (cs : List Call) : List Nat := cs.filterMap Call.status

/-- The calls that change the store. -/
def Call.isStoreMutation : Call → Bool
  | .InsertUser _ _ => true
  | .UpdateUserHashedPassword _ _ => true
  | .InsertPasswordReset _ _ _ => true
  | .DeletePasswordResets _ => true
  | _ => false

/-- The calls that write the session. -/
def Call.isSessionWrite : Call → Bool
  | .SessionSave _ => true
  | _ => false

/-- The command names that the specification permits. -/
def whitelist : List String := ["ping", "traceroute", "dig", "whois", "mtr"]

/-- The fixed arguments of each permitted command, as the specification
lists them. -/
def fixedArgs (c : String) : List String :=
  if c = "ping" then ["-c", "4"]
  else if c = "traceroute" then []
  else if c = "dig" then ["+short"]
  else if c = "whois" then []
  else if c = "mtr" then ["--report-wide", "-c", "4"]
  else []

/-- The text shown for an outcome of the subprocess, as the specification
words it. -/
def resultText (output : String) (err : Option GoError) : String :=
  match err with
  | none => output
  | some e => output ++ "\n\nError: " ++ e

/-- The calls on the session store. -/
def Call.isSession : Call → Bool
  | .SessionGet => true
  | .SessionSave _ => true
  | _ => false

/-! ## The values that the handlers compute

The forms, page data and commands that the handlers build on their way, named
so that the theorems can speak of them; the lemmas below tie each to its
handler. -/

/-- The command that `runHandler` builds for a validated form. -/
def runCmd (r : Request) : Cmd :=
  exec_Command (formValue r "command") (fixedArgs (formValue r "command") ++ [formValue r "target"])

/-- The data of the result page of `runHandler`. -/
def runData {σ : Type} (env : Env σ) (r : Request) (output : String) (err : Option GoError) :
    GoMap :=
  mapSet (newTemplateData env r) "Output" (.str (resultText output err))

/-- The form of `signup` after its checks, given the result `found` of the
user lookup. -/
def signupForm {σ : Type} (env : Env σ) (r : Request) (found : Bool) : CredentialsForm :=
  let form : CredentialsForm :=
    { Email := formValue r "Email", Password := formValue r "Password" }
  let v := form.Validator
  let v := v.CheckField (form.Email != "") "Email" "Email is required"
  let v := v.CheckField (env.MatchesRgxEmail form.Email) "Email" "Must be a valid email address"
  let v := v.CheckField (!found) "Email" "Email is already in use"
  let v := v.CheckField (form.Password != "") "Password" "Password is required"
  let v := v.CheckField (decide (len form.Password ≥ 8)) "Password" "Password is too short"
  let v := v.CheckField (decide (len form.Password ≤ 72)) "Password" "Password is too long"
  let v := v.CheckField (NotIn form.Password env.CommonPasswords) "Password"
    "Password is too common"
  { form with Validator := v }

/-- The data of the page on which `signup` shows a form again. -/
def signupData {σ : Type} (env : Env σ) (r : Request) (found : Bool) : GoMap :=
  mapSet (newTemplateData env r) "Form" (.credentialsForm (signupForm env r found))

/-- The form of `passwordReset` after its checks. -/
def resetForm {σ : Type} (env : Env σ) (r : Request) : NewPasswordForm :=
  let form : NewPasswordForm := { NewPassword := formValue r "NewPassword" }
  let v := form.Validator
  let v := v.CheckField (form.NewPassword != "") "NewPassword" "New password is required"
  let v := v.CheckField (decide (len form.NewPassword ≥ 8)) "NewPassword"
    "New password is too short"
  let v := v.CheckField (decide (len form.NewPassword ≤ 72)) "NewPassword"
    "New password is too long"
  let v := v.CheckField (NotIn form.NewPassword env.CommonPasswords) "NewPassword"
    "New password is too common"
  { form with Validator := v }

/-- The data of the page on which `passwordReset` shows a form again. -/
def resetData {σ : Type} (env : Env σ) (r : Request) : GoMap :=
  mapSet (mapSet (newTemplateData env r) "Form" (.newPasswordForm (resetForm env r)))
    "PlaintextToken" (.str r.plaintextToken)

/-- The form of `login` after its checks, given the result `found` of the
user lookup and the result of the password comparison. -/
def loginForm (r : Request) (found passwordMatches : Bool) : CredentialsForm :=
  let form : CredentialsForm :=
    { Email := formValue r "Email", Password := formValue r "Password" }
  let v := form.Validator
  let v := v.CheckField (form.Email != "") "Email" "Email is required"
  let v := v.CheckField found "Email" "Email address could not be found"
  let v := if found then
      (v.CheckField (form.Password != "") "Password" "Password is required").CheckField
        passwordMatches "Password" "Password is incorrect"
    else v
  { form with Validator := v }

/-- The values of the session that `login` saves for the user `id`. -/
def loginSession (session : GoMap) (id : Int) : GoMap :=
  if (assertString (mapGet (mapSet session "userID" (.int id)) "redirectPathAfterLogin")).2 then
    mapDelete (mapSet session "userID" (.int id)) "redirectPathAfterLogin"
  else
    mapSet session "userID" (.int id)

/-- The path to which `login` redirects. -/
def loginRedirect (session : GoMap) (id : Int) : String :=
  if (assertString (mapGet (mapSet session "userID" (.int id)) "redirectPathAfterLogin")).2 then
    (assertString (mapGet (mapSet session "userID" (.int id)) "redirectPathAfterLogin")).1
  else
    "/"

/-- The form of `forgottenPassword` after its checks, given the result
`found` of the user lookup. -/
def forgottenForm {σ : Type} (env : Env σ) (r : Request) (found : Bool) : EmailForm :=
  let form : EmailForm := { Email := formValue r "Email" }
  let v := form.Validator
  let v := v.CheckField (form.Email != "") "Email" "Email is required"
  let v := v.CheckField (env.MatchesRgxEmail form.Email) "Email" "Must be a valid email address"
  let v := v.CheckField found "Email" "No matching email found"
  { form with Validator := v }

/-- The data that `forgottenPassword` hands to the mailer. -/
def mailData {σ : Type} (env : Env σ) : GoMap :=
  mapSet (newEmailData env) "PlaintextToken" (.str env.tokenNew)

/-! ## A store

The store package is not among the sources.  The model below follows the
specification of the credential store: it persists user records and
password-reset records and has no logic beyond lookup, insert, update and
delete. -/

/-- Modelled from the spec: the state of the credential store (package
`internal/database`, not among the sources): the user records, the
password-reset records and the clock of the store. -/
structure Store where
  users : List User
  resets : List PasswordReset
  now : Nat
deriving DecidableEq, Repr, Inhabited

/-- Modelled from the spec: `GetUserByEmail(email) -> (User, found, err)`,
a lookup of the user record with that email. -/
def Store.GetUserByEmail (s : Store) (email : String) : User × Bool × Option GoError :=
  match s.users.find? (fun u => u.Email == email) with
  | some u => (u, true, none)
  | none => (default, false, none)

/-- Modelled from the spec: `InsertUser(email, hash) -> (id, err)`; email
uniqueness is enforced at the store boundary. -/
def Store.InsertUser (s : Store) (email hashedPassword : String) :
    (Int × Option GoError) × Store :=
  if s.users.any (fun u => u.Email == email) then
    ((0, some "duplicate email"), s)
  else
    let id : Int := (s.users.foldl (fun m u => max m u.ID) 0) + 1
    ((id, none), { s with users := s.users ++ [⟨id, email, hashedPassword⟩] })

/-- Modelled from the spec: `UpdateUserHashedPassword(userID, hash) -> err`. -/
def Store.UpdateUserHashedPassword (s : Store) (id : Int) (hashedPassword : String) :
    Option GoError × Store :=
  let users := s.users.map
    (fun u => if u.ID = id then { u with HashedPassword := hashedPassword } else u)
  (none, { s with users := users })

/-- Modelled from the spec: `InsertPasswordReset(tokenHash, userID, ttl) -> err`
persists the record with expiry `now + ttl`. -/
def Store.InsertPasswordReset (s : Store) (hashedToken : String) (userID : Int) (ttl : Nat) :
    Option GoError × Store :=
  (none, { s with resets := s.resets ++ [⟨hashedToken, userID, s.now + ttl⟩] })

/-- Modelled from the spec: `GetPasswordReset(tokenHash) -> (record, found, err)`
finds a stored record with that token hash and treats expired records (those
with `now > ExpiresAt`) as not found. -/
def Store.GetPasswordReset (s : Store) (hashedToken : String) :
    PasswordReset × Bool × Option GoError :=
  match s.resets.find? (fun p => p.HashedToken == hashedToken && decide (s.now ≤ p.Expiry)) with
  | some p => (p, true, none)
  | none => (default, false, none)

/-- Modelled from the spec: `DeletePasswordResets(userID) -> err` deletes all
reset records of that user. -/
def Store.DeletePasswordResets (s : Store) (userID : Int) : Option GoError × Store :=
  (none, { s with resets := s.resets.filter (fun p => p.UserID != userID) })

/-- The store model as the collaborator `app.db`. -/
def storeDB : DB Store :=
  { GetUserByEmail := Store.GetUserByEmail
    InsertUser := Store.InsertUser
    UpdateUserHashedPassword := Store.UpdateUserHashedPassword
    InsertPasswordReset := Store.InsertPasswordReset
    GetPasswordReset := Store.GetPasswordReset
    DeletePasswordResets := Store.DeletePasswordResets }

/-- The token belongs to user `u` in the store: the reset records that carry
its hash are records of `u`. -/
def Store.tokenOf (s : Store) (hashedToken : String) (u : Int) : Prop :=
  ∀ p ∈ s.resets, p.HashedToken = hashedToken → p.UserID = u

instance (s : Store) (hashedToken : String) (u : Int) : Decidable (s.tokenOf hashedToken u) :=
  inferInstanceAs (Decidable (∀ p ∈ s.resets, p.HashedToken = hashedToken → p.UserID = u))

/-- The store is a later state of the store `s` as far as the token is
concerned: no reset record with the hash of the token has been inserted
since `s`. -/
def Store.noneIssuedSince (later s : Store) (hashedToken : String) : Prop :=
  ∀ p ∈ later.resets, p ∈ s.resets ∨ p.HashedToken ≠ hashedToken

instance (later s : Store) (hashedToken : String) :
    Decidable (later.noneIssuedSince s hashedToken) :=
  inferInstanceAs (Decidable (∀ p ∈ later.resets, p ∈ s.resets ∨ p.HashedToken ≠ hashedToken))

/-! ## Concrete collaborators

An instance of the collaborators on which the theorems are exhibited. -/

/-- Modelled from the spec: a target is safe only if it is not empty, does
not start with a hyphen and has no character outside `[A-Za-z0-9.:-]`. -/
def safeTarget (s : String) : Bool :=
  match s.data with
  | [] => false
  | c :: cs => c != '-' && (c :: cs).all (fun x => x.isAlphanum || x == '.' || x == ':' || x == '-')

/-- A process that exits at once with the given output and status 0. -/
def quickProc (output : String) : Proc :=
  { output := output, err := none, exitAt := some 1, pipeEOF := some 1 }

/-- A process that never exits. -/
def runawayProc : Proc := { output := "", err := none, exitAt := none, pipeEOF := none }

/-- A process that exits at time 1 with status 0 and leaves a descendant that
keeps the output pipe open for ever. -/
def orphaningProc : Proc :=
  { output := "started", err := none, exitAt := some 1, pipeEOF := none }

/-- Collaborators that never fail, over the store model. -/
def sampleEnv : Env Store :=
  { db := storeDB
    sessionGetErr := none
    sessionSaveErr := fun _ => none
    pageErr := fun _ _ _ => none
    mailerSendErr := fun _ _ _ => none
    MatchesRgxEmail := fun s => s.data.contains '@'
    CommonPasswords := ["password", "12345678"]
    passwordHash := fun p => ("hash:" ++ p, none)
    passwordMatches := fun p h => (h == "hash:" ++ p, none)
    tokenNew := "t0ken"
    tokenHash := fun t => "sha256:" ++ t
    SafeHostnameOrIP := safeTarget
    spawn := fun _ => quickProc "64 bytes from 8.8.8.8"
    version := "v1"
    baseURL := "http://localhost" }

/-- Collaborators that never fail, with a subprocess that never exits. -/
def runawayEnv : Env Store := { sampleEnv with spawn := fun _ => runawayProc }

/-- Collaborators that never fail, with a subprocess that exits and leaves a
descendant holding the output pipe. -/
def orphaningEnv : Env Store := { sampleEnv with spawn := fun _ => orphaningProc }

/-- Collaborators that never fail, except that getting the session does. -/
def getFailsEnv : Env Store :=
  { sampleEnv with sessionGetErr := some "securecookie: the value is not valid" }

/-- Collaborators that never fail, with a subprocess that exits with an
error after writing output. -/
def failingEnv : Env Store :=
  { sampleEnv with spawn := fun _ =>
      { output := "ping: unknown host", err := some "exit status 2", exitAt := some 3,
        pipeEOF := some 3 } }

/-- Collaborators that never fail, except that saving the session does. -/
def saveFailsEnv : Env Store :=
  { sampleEnv with sessionSaveErr := fun _ => some "securecookie: the value is too long" }

/-- A POST request with the given form values. -/
def postRequest (form : List (String × String)) : Request :=
  { Method := MethodPost, PostForm := form }

/-- The request `command=ping&target=8.8.8.8`. -/
def pingRequest : Request := postRequest [("command", "ping"), ("target", "8.8.8.8")]

/-- A signup request with a password of five bytes. -/
def shortSignup : Request := postRequest [("Email", "bob@example.org"), ("Password", "short")]

/-- The login request of the user of `annStore`. -/
def annLogin : Request :=
  postRequest [("Email", "ann@example.org"), ("Password", "correcthorsebattery")]

/-- A forgotten-password request for the user of `annStore`. -/
def annForgotten : Request := postRequest [("Email", "ann@example.org")]

/-- A forgotten-password request for an email that is not registered. -/
def strangerForgotten : Request := postRequest [("Email", "eve@example.org")]

/-- The request that resets the password with the token `t0ken`. -/
def resetPost : Request :=
  { Method := MethodPost, PostForm := [("NewPassword", "staplebattery")],
    plaintextToken := "t0ken" }

/-- A later request that presents the token `other`. -/
def resetOther : Request := { Method := MethodGet, plaintextToken := "other" }

/-- An empty store at time 0. -/
def emptyStore : Store := { users := [], resets := [], now := 0 }

/-- The store with the one user `ann@example.org`, whose password is
`correcthorsebattery`. -/
def annStore : Store :=
  { users := [⟨7, "ann@example.org", "hash:correcthorsebattery"⟩], resets := [], now := 0 }

/-- The store with the user 7 of `annStore` and two reset tokens issued to
that user, `t0ken` and `other`. -/
def resetStore : Store :=
  { users := [⟨7, "ann@example.org", "hash:correcthorsebattery"⟩]
    resets := [⟨"sha256:t0ken", 7, 100⟩, ⟨"sha256:other", 7, 200⟩]
    now := 10 }

/-- The store `resetStore` after the password of user 7 has been reset. -/
def resetStoreAfter : Store :=
  { users := [⟨7, "ann@example.org", "hash:staplebattery"⟩], resets := [], now := 10 }

/-- A session bound to user 7 with a pending redirect target. -/
def boundSession : GoMap := [("userID", .int 7), ("redirectPathAfterLogin", .str "/run")]

/-! ## Lemmas -/

theorem lookup_validCommands (c : String) :
    validCommands.lookup c = if c ∈ whitelist then some (fixedArgs c) else none := by
  unfold validCommands whitelist fixedArgs
  by_cases h1 : c = "ping"
  · subst h1; rfl
  by_cases h2 : c = "traceroute"
  · subst h2; rfl
  by_cases h3 : c = "dig"
  · subst h3; rfl
  by_cases h4 : c = "whois"
  · subst h4; rfl
  by_cases h5 : c = "mtr"
  · subst h5; rfl
  have e1 : (c == "ping") = false := by simpa using h1
  have e2 : (c == "traceroute") = false := by simpa using h2
  have e3 : (c == "dig") = false := by simpa using h3
  have e4 : (c == "whois") = false := by simpa using h4
  have e5 : (c == "mtr") = false := by simpa using h5
  simp [List.lookup, e1, e2, e3, e4, e5, h1, h2, h3, h4, h5]

theorem MethodPost_ne_MethodGet : MethodPost ≠ MethodGet := by decide

theorem runHandler_reject_command {σ : Type} (env : Env σ) (r : Request) (w : World σ)
    (hpost : r.Method = MethodPost) (hdec : r.decodeErr = none)
    (hc : formValue r "command" ∉ whitelist) :
    runHandler env r w = ⟨w.log (.badRequest none), true⟩ := by
  simp [runHandler, hpost, MethodPost_ne_MethodGet, hdec, lookup_validCommands, hc]

theorem runHandler_reject_target {σ : Type} (env : Env σ) (r : Request) (w : World σ)
    (hpost : r.Method = MethodPost) (hdec : r.decodeErr = none)
    (ht : env.SafeHostnameOrIP (formValue r "target") = false) :
    runHandler env r w = ⟨w.log (.badRequest none), true⟩ := by
  by_cases hc : formValue r "command" ∈ whitelist
  · simp [runHandler, hpost, MethodPost_ne_MethodGet, hdec, lookup_validCommands, hc, ht]
  · exact runHandler_reject_command env r w hpost hdec hc

theorem runHandler_exec {σ : Type} (env : Env σ) (r : Request) (w : World σ)
    (hpost : r.Method = MethodPost) (hdec : r.decodeErr = none)
    (hc : formValue r "command" ∈ whitelist)
    (ht : env.SafeHostnameOrIP (formValue r "target") = true) :
    runHandler env r w =
      match CombinedOutput (runCmd r) (env.spawn (runCmd r)) with
      | none => ⟨w.log (.Exec (runCmd r)), false⟩
      | some (output, err) =>
        ⟨renderPage env (w.log (.Exec (runCmd r))) StatusOK (runData env r output err)
          "pages/lookingglass.tmpl", true⟩ := by
  simp only [runHandler, hpost, MethodPost_ne_MethodGet, hdec, lookup_validCommands, hc, ht,
    if_false, if_true, Option.isSome_none, Bool.false_eq_true, Bool.not_true, runCmd, runData]
  cases hco : CombinedOutput (exec_Command (formValue r "command")
      (fixedArgs (formValue r "command") ++ [formValue r "target"]))
      (env.spawn (exec_Command (formValue r "command")
      (fixedArgs (formValue r "command") ++ [formValue r "target"]))) with
  | none => rfl
  | some p =>
    obtain ⟨output, err⟩ := p
    cases err <;> rfl

theorem renderPage_calls {σ : Type} (env : Env σ) (w : World σ) (status : Nat) (data : GoMap)
    (tmpl : String) :
    (renderPage env w status data tmpl).calls =
      w.calls ++ Call.Page status data tmpl ::
        (match env.pageErr status data tmpl with
          | some e => [Call.serverError e]
          | none => []) := by
  unfold renderPage
  cases env.pageErr status data tmpl <;> simp [World.log]

theorem renderPage_store {σ : Type} (env : Env σ) (w : World σ) (status : Nat) (data : GoMap)
    (tmpl : String) :
    (renderPage env w status data tmpl).store = w.store ∧
      (renderPage env w status data tmpl).session = w.session := by
  unfold renderPage
  cases env.pageErr status data tmpl <;> simp [World.log]

theorem runHandler_execCalls {σ : Type} (env : Env σ) (r : Request) (store : σ)
    (session : GoMap) (hpost : r.Method = MethodPost) (hdec : r.decodeErr = none)
    (hc : formValue r "command" ∈ whitelist)
    (ht : env.SafeHostnameOrIP (formValue r "target") = true) :
    execCalls (runHandler env r ⟨store, session, []⟩).world.calls = [runCmd r] := by
  rw [runHandler_exec env r ⟨store, session, []⟩ hpost hdec hc ht]
  cases hco : CombinedOutput (runCmd r) (env.spawn (runCmd r)) with
  | none => simp [World.log, execCalls]
  | some p =>
    obtain ⟨output, err⟩ := p
    simp only [renderPage_calls, World.log, execCalls]
    cases env.pageErr StatusOK (runData env r output err) "pages/lookingglass.tmpl" <;> simp

theorem runHandler_exited {σ : Type} (env : Env σ) (r : Request) (store : σ)
    (session : GoMap) (output : String) (err : Option GoError)
    (hpost : r.Method = MethodPost) (hdec : r.decodeErr = none)
    (hc : formValue r "command" ∈ whitelist)
    (ht : env.SafeHostnameOrIP (formValue r "target") = true)
    (hout : CombinedOutput (runCmd r) (env.spawn (runCmd r)) = some (output, err)) :
    (runHandler env r ⟨store, session, []⟩).returned = true ∧
    (runHandler env r ⟨store, session, []⟩).world.calls =
      Call.Exec (runCmd r) :: Call.Page 200 (mapSet (newTemplateData env r) "Output"
          (.str (resultText output err))) "pages/lookingglass.tmpl" ::
        (match env.pageErr 200 (mapSet (newTemplateData env r) "Output"
          (.str (resultText output err))) "pages/lookingglass.tmpl" with
          | some e => [Call.serverError e]
          | none => []) := by
  have hrun := runHandler_exec env r ⟨store, session, []⟩ hpost hdec hc ht
  rw [hout] at hrun
  simp only at hrun
  rw [hrun]
  simp only [renderPage_calls, World.log, runData, StatusOK]
  exact ⟨trivial, rfl⟩

theorem runHandler_pageCalls {σ : Type} (env : Env σ) (r : Request) (store : σ)
    (session : GoMap) (output : String) (err : Option GoError)
    (hpost : r.Method = MethodPost) (hdec : r.decodeErr = none)
    (hc : formValue r "command" ∈ whitelist)
    (ht : env.SafeHostnameOrIP (formValue r "target") = true)
    (hout : CombinedOutput (runCmd r) (env.spawn (runCmd r)) = some (output, err)) :
    pageCalls (runHandler env r ⟨store, session, []⟩).world.calls =
      [(200, mapSet (newTemplateData env r) "Output" (.str (resultText output err)),
        "pages/lookingglass.tmpl")] := by
  rw [(runHandler_exited env r store session output err hpost hdec hc ht hout).2]
  cases env.pageErr 200 (mapSet (newTemplateData env r) "Output"
    (.str (resultText output err))) "pages/lookingglass.tmpl" <;> simp [pageCalls]

theorem mem_CheckField (v : Validator) (ok : Bool) (key message : String)
    (x : String × String) :
    x ∈ (v.CheckField ok key message).FieldErrors ↔
      x ∈ v.FieldErrors ∨ (ok = false ∧ x = (key, message)) := by
  cases ok <;> simp [Validator.CheckField]

theorem HasErrors_of_mem (v : Validator) (x : String × String) (h : x ∈ v.FieldErrors) :
    v.HasErrors = true := by
  unfold Validator.HasErrors
  cases hv : v.FieldErrors with
  | nil => rw [hv] at h; cases h
  | cons a l => rfl

theorem signup_invalid {σ : Type} (env : Env σ) (r : Request) (w : World σ) (u : User)
    (found : Bool) (hpost : r.Method = MethodPost) (hdec : r.decodeErr = none)
    (hget : env.db.GetUserByEmail w.store (formValue r "Email") = (u, found, none))
    (herr : (signupForm env r found).Validator.HasErrors = true) :
    signup env r w =
      renderPage env (w.log (.GetUserByEmail (formValue r "Email"))) StatusUnprocessableEntity
        (signupData env r found) "pages/signup.tmpl" := by
  unfold signupForm at herr
  simp only [signup, hpost, MethodPost_ne_MethodGet, if_false, if_true, hdec, World.log, hget]
  simp only [herr, if_true]
  rfl

theorem signup_pageCalls {σ : Type} (env : Env σ) (r : Request) (store : σ) (session : GoMap)
    (u : User) (found : Bool) (hpost : r.Method = MethodPost) (hdec : r.decodeErr = none)
    (hget : env.db.GetUserByEmail store (formValue r "Email") = (u, found, none)) :
    ∀ p ∈ pageCalls (signup env r ⟨store, session, []⟩).calls,
      p = (422, signupData env r found, "pages/signup.tmpl") := by
  cases herr : (signupForm env r found).Validator.HasErrors with
  | true =>
    rw [signup_invalid env r _ u found hpost hdec hget herr]
    intro p hp
    simp only [renderPage_calls, World.log, pageCalls] at hp
    cases hpe : env.pageErr StatusUnprocessableEntity (signupData env r found)
      "pages/signup.tmpl" <;> rw [hpe] at hp <;> simp at hp <;> rw [hp] <;> rfl
  | false =>
    unfold signupForm at herr
    intro p hp
    simp only [signup, hpost, MethodPost_ne_MethodGet, if_false, if_true, hdec, World.log,
      hget] at hp
    simp only [herr] at hp
    revert hp
    simp only [Bool.false_eq_true, if_false]
    split
    · simp [pageCalls]
    · split
      · simp [pageCalls]
      · split
        · simp [pageCalls]
        · split <;> simp [pageCalls]

theorem passwordReset_invalid {σ : Type} (env : Env σ) (r : Request) (w : World σ)
    (pr : PasswordReset) (hpost : r.Method = MethodPost) (hdec : r.decodeErr = none)
    (hget : env.db.GetPasswordReset w.store (env.tokenHash r.plaintextToken) = (pr, true, none))
    (herr : (resetForm env r).Validator.HasErrors = true) :
    passwordReset env r w =
      renderPage env (w.log (.GetPasswordReset (env.tokenHash r.plaintextToken)))
        StatusUnprocessableEntity (resetData env r) "pages/password-reset.tmpl" := by
  unfold resetForm at herr
  simp only [passwordReset, hpost, MethodPost_ne_MethodGet, if_false, if_true, hdec, World.log,
    hget, Bool.not_true, Bool.false_eq_true]
  simp only [herr, if_true]
  rfl

theorem passwordReset_pageCalls {σ : Type} (env : Env σ) (r : Request) (store : σ)
    (session : GoMap) (pr : PasswordReset) (hpost : r.Method = MethodPost)
    (hdec : r.decodeErr = none)
    (hget : env.db.GetPasswordReset store (env.tokenHash r.plaintextToken) = (pr, true, none)) :
    ∀ p ∈ pageCalls (passwordReset env r ⟨store, session, []⟩).calls,
      p = (422, resetData env r, "pages/password-reset.tmpl") := by
  cases herr : (resetForm env r).Validator.HasErrors with
  | true =>
    rw [passwordReset_invalid env r _ pr hpost hdec hget herr]
    intro p hp
    simp only [renderPage_calls, World.log, pageCalls] at hp
    cases hpe : env.pageErr StatusUnprocessableEntity (resetData env r)
      "pages/password-reset.tmpl" <;> rw [hpe] at hp <;> simp at hp <;> rw [hp] <;> rfl
  | false =>
    unfold resetForm at herr
    intro p hp
    simp only [passwordReset, hpost, MethodPost_ne_MethodGet, if_false, if_true, hdec,
      World.log, hget, Bool.not_true, Bool.false_eq_true] at hp
    simp only [herr] at hp
    revert hp
    simp only [Bool.false_eq_true, if_false]
    split
    · simp [pageCalls]
    · split
      · simp [pageCalls]
      · split <;> simp [pageCalls]

theorem renderPage_from_log {σ : Type} (env : Env σ) (store : σ) (session : GoMap) (c : Call)
    (status : Nat) (data : GoMap) (tmpl : String) :
    pageCalls (renderPage env (World.log ⟨store, session, []⟩ c) status data tmpl).calls =
        pageCalls [c] ++ [(status, data, tmpl)] ∧
      (∀ x ∈ (renderPage env (World.log ⟨store, session, []⟩ c) status data tmpl).calls,
        x = c ∨ x = Call.Page status data tmpl ∨ ∃ e, x = Call.serverError e) ∧
      (renderPage env (World.log ⟨store, session, []⟩ c) status data tmpl).store = store ∧
      (renderPage env (World.log ⟨store, session, []⟩ c) status data tmpl).session = session := by
  refine ⟨?_, ?_, (renderPage_store env _ status data tmpl).1,
    (renderPage_store env _ status data tmpl).2⟩
  · rw [renderPage_calls]
    cases env.pageErr status data tmpl <;> cases c <;> simp [World.log, pageCalls]
  · rw [renderPage_calls]
    intro x hx
    cases hpe : env.pageErr status data tmpl <;> rw [hpe] at hx <;>
      simp [World.log] at hx
    · rcases hx with h | h
      · left; exact h
      · right; left; exact h
    · rcases hx with h | h | h
      · left; exact h
      · right; left; exact h
      · right; right; exact ⟨_, h⟩

theorem mapGet_mapSet_self (m : GoMap) (k : String) (v : Value) :
    mapGet (mapSet m k v) k = some v := by
  simp [mapGet, mapSet, List.lookup]

theorem mapGet_mapDelete_self (m : GoMap) (k : String) : mapGet (mapDelete m k) k = none := by
  induction m with
  | nil => rfl
  | cons a l ih =>
    unfold mapDelete at ih ⊢
    unfold mapGet at ih ⊢
    by_cases h : a.1 = k
    · simp [List.filter, h, ih]
    · have hb : (a.1 != k) = true := by simpa using h
      have hb2 : (k == a.1) = false := by simpa using fun e => h e.symm
      simp [List.filter, hb, List.lookup, hb2, ih]

theorem mapGet_mapDelete_ne (m : GoMap) (k j : String) (h : j ≠ k) :
    mapGet (mapDelete m k) j = mapGet m j := by
  induction m with
  | nil => rfl
  | cons a l ih =>
    unfold mapDelete at ih ⊢
    unfold mapGet at ih ⊢
    obtain ⟨a1, a2⟩ := a
    by_cases hk : a1 = k
    · have hj : (j == a1) = false := by simpa [hk] using h
      simp [List.filter, hk, List.lookup, ih]
      rw [← hk] at ih ⊢
      simp [hj]
    · have hb : (a1 != k) = true := by simpa using hk
      simp only [List.filter, hb, List.lookup]
      cases hj : (j == a1) with
      | true => rfl
      | false => exact ih

theorem mapGet_mapSet_ne (m : GoMap) (k j : String) (v : Value) (h : j ≠ k) :
    mapGet (mapSet m k v) j = mapGet m j := by
  have hb : (j == k) = false := by simpa using h
  have := mapGet_mapDelete_ne m k j h
  unfold mapGet at this ⊢
  simp [mapSet, List.lookup, hb, this]

theorem mapDelete_idem (m : GoMap) (k : String) : mapDelete (mapDelete m k) k = mapDelete m k := by
  simp [mapDelete, List.filter_filter]

theorem mapDelete_absent (m : GoMap) (k : String) (h : mapGet m k = none) :
    mapDelete m k = m := by
  induction m with
  | nil => rfl
  | cons a l ih =>
    obtain ⟨a1, a2⟩ := a
    unfold mapGet at h ih
    unfold mapDelete at ih ⊢
    cases hk : (k == a1) with
    | true => simp [List.lookup, hk] at h
    | false =>
      simp only [List.lookup, hk] at h
      have hb : (a1 != k) = true := by
        have : k ≠ a1 := by simpa using hk
        simpa using fun e => this e.symm
      simp only [List.filter, hb]
      rw [ih h]

theorem login_success {σ : Type} (env : Env σ) (r : Request) (store : σ) (session : GoMap)
    (U : User) (hpost : r.Method = MethodPost) (hdec : r.decodeErr = none)
    (hget : env.db.GetUserByEmail store (formValue r "Email") = (U, true, none))
    (hemail : formValue r "Email" ≠ "") (hpw : formValue r "Password" ≠ "")
    (hmatch : env.passwordMatches (formValue r "Password") U.HashedPassword = (true, none))
    (hsg : env.sessionGetErr = none) (hss : ∀ m, env.sessionSaveErr m = none) :
    login env r ⟨store, session, []⟩ =
      ⟨store, loginSession session U.ID,
        [Call.GetUserByEmail (formValue r "Email"), Call.SessionGet,
          Call.SessionSave (loginSession session U.ID),
          Call.Redirect (loginRedirect session U.ID) 303]⟩ := by
  have he : (formValue r "Email" != "") = true := by simpa using hemail
  have hp : (formValue r "Password" != "") = true := by simpa using hpw
  simp only [login, hpost, MethodPost_ne_MethodGet, if_false, if_true, hdec, World.log, hget,
    hmatch, he, hp, Validator.CheckField, Validator.HasErrors, hsg, hss, loginSession,
    loginRedirect, StatusSeeOther]
  by_cases hok : (assertString
      (mapGet (mapSet session "userID" (.int U.ID)) "redirectPathAfterLogin")).2 = true
  · simp [hok]
  · simp [hok]

theorem login_invalid {σ : Type} (env : Env σ) (r : Request) (w : World σ) (U : User)
    (found b : Bool) (hpost : r.Method = MethodPost) (hdec : r.decodeErr = none)
    (hget : env.db.GetUserByEmail w.store (formValue r "Email") = (U, found, none))
    (hm : found = true →
      env.passwordMatches (formValue r "Password") U.HashedPassword = (b, none))
    (herr : (loginForm r found b).Validator.HasErrors = true) :
    login env r w =
      renderPage env (w.log (.GetUserByEmail (formValue r "Email"))) StatusUnprocessableEntity
        (mapSet (newTemplateData env r) "Form" (.credentialsForm (loginForm r found b)))
        "pages/login.tmpl" := by
  cases found with
  | false =>
    simp only [loginForm, Bool.false_eq_true, if_false] at herr
    simp only [login, hpost, MethodPost_ne_MethodGet, if_false, if_true, hdec, World.log, hget,
      Bool.false_eq_true]
    simp only [herr, if_true]
    rfl
  | true =>
    have hm2 := hm rfl
    simp only [loginForm, if_true] at herr
    simp only [login, hpost, MethodPost_ne_MethodGet, if_false, if_true, hdec, World.log, hget,
      hm2]
    simp only [herr, if_true]
    rfl

theorem logout_ok {σ : Type} (env : Env σ) (r : Request) (w : World σ)
    (hsg : env.sessionGetErr = none)
    (hss : env.sessionSaveErr (mapDelete w.session "userID") = none) :
    logout env r w =
      ⟨w.store, mapDelete w.session "userID",
        w.calls ++ [Call.SessionGet, Call.SessionSave (mapDelete w.session "userID"),
          Call.Redirect "/" 303]⟩ := by
  simp [logout, hsg, hss, World.log, StatusSeeOther]

theorem forgottenPassword_invalid {σ : Type} (env : Env σ) (r : Request) (w : World σ)
    (U : User) (found : Bool) (hpost : r.Method = MethodPost) (hdec : r.decodeErr = none)
    (hget : env.db.GetUserByEmail w.store (formValue r "Email") = (U, found, none))
    (herr : (forgottenForm env r found).Validator.HasErrors = true) :
    forgottenPassword env r w =
      renderPage env (w.log (.GetUserByEmail (formValue r "Email"))) StatusUnprocessableEntity
        (mapSet (newTemplateData env r) "Form" (.emailForm (forgottenForm env r found)))
        "pages/forgotten-password.tmpl" := by
  unfold forgottenForm at herr
  simp only [forgottenPassword, hpost, MethodPost_ne_MethodGet, if_false, if_true, hdec,
    World.log, hget]
  simp only [herr, if_true]
  rfl

theorem forgottenForm_valid {σ : Type} (env : Env σ) (r : Request) (found : Bool)
    (h : (forgottenForm env r found).Validator.HasErrors = false) : found = true := by
  cases found with
  | true => rfl
  | false =>
    have hm : ("Email", "No matching email found") ∈
        (forgottenForm env r false).Validator.FieldErrors := by
      simp [forgottenForm, mem_CheckField]
    rw [HasErrors_of_mem _ _ hm] at h
    cases h

theorem forgottenPassword_valid {σ : Type} (env : Env σ) (r : Request) (store : σ)
    (session : GoMap) (U : User) (found : Bool)
    (hpost : r.Method = MethodPost) (hdec : r.decodeErr = none)
    (hget : env.db.GetUserByEmail store (formValue r "Email") = (U, found, none))
    (herr : (forgottenForm env r found).Validator.HasErrors = false) :
    (forgottenPassword env r ⟨store, session, []⟩).calls =
      [Call.GetUserByEmail (formValue r "Email"), Call.TokenNew,
        Call.InsertPasswordReset (env.tokenHash env.tokenNew) U.ID (24 * Hour)] ++
      (match (env.db.InsertPasswordReset store (env.tokenHash env.tokenNew) U.ID (24 * Hour)).1
        with
        | some e => [Call.serverError e]
        | none =>
          Call.MailerSend U.Email (mailData env) "forgotten-password.tmpl" ::
            (match env.mailerSendErr U.Email (mailData env) "forgotten-password.tmpl" with
              | some e => [Call.serverError e]
              | none => [Call.Redirect "/forgotten-password-confirmation" 303])) := by
  unfold forgottenForm at herr
  simp only [forgottenPassword, hpost, MethodPost_ne_MethodGet, if_false, if_true, hdec,
    World.log, hget]
  simp only [herr, Bool.false_eq_true, if_false]
  rcases hins : env.db.InsertPasswordReset store (env.tokenHash env.tokenNew) U.ID (24 * Hour)
    with ⟨e, st⟩
  cases e with
  | some e => simp
  | none =>
    simp only [mailData]
    cases hsend : env.mailerSendErr U.Email
      (mapSet (newEmailData env) "PlaintextToken" (.str env.tokenNew))
      "forgotten-password.tmpl" <;> simp [StatusSeeOther]

theorem passwordReset_notFound {σ : Type} (env : Env σ) (r : Request) (w : World σ)
    (pr : PasswordReset)
    (hget : env.db.GetPasswordReset w.store (env.tokenHash r.plaintextToken) =
      (pr, false, none)) :
    passwordReset env r w =
      renderPage env (w.log (.GetPasswordReset (env.tokenHash r.plaintextToken)))
        StatusUnprocessableEntity (mapSet (newTemplateData env r) "InvalidLink" (.bool true))
        "pages/password-reset.tmpl" := by
  simp only [passwordReset, World.log, hget]
  rfl

theorem passwordReset_success {σ : Type} (env : Env σ) (r : Request) (store : σ)
    (session : GoMap) (pr : PasswordReset) (hashed : String) (s1 s2 : σ)
    (hpost : r.Method = MethodPost) (hdec : r.decodeErr = none)
    (hget : env.db.GetPasswordReset store (env.tokenHash r.plaintextToken) = (pr, true, none))
    (hvalid : (resetForm env r).Validator.HasErrors = false)
    (hhash : env.passwordHash (formValue r "NewPassword") = (hashed, none))
    (hupd : env.db.UpdateUserHashedPassword store pr.UserID hashed = (none, s1))
    (hdel : env.db.DeletePasswordResets s1 pr.UserID = (none, s2)) :
    passwordReset env r ⟨store, session, []⟩ =
      ⟨s2, session,
        [Call.GetPasswordReset (env.tokenHash r.plaintextToken),
          Call.UpdateUserHashedPassword pr.UserID hashed,
          Call.DeletePasswordResets pr.UserID,
          Call.Redirect "/password-reset-confirmation" 303]⟩ := by
  unfold resetForm at hvalid
  simp only [passwordReset, hpost, MethodPost_ne_MethodGet, if_false, if_true, hdec, World.log,
    hget, Bool.not_true, Bool.false_eq_true]
  simp only [hvalid, Bool.false_eq_true, if_false, hhash, hupd, hdel]
  rfl

theorem Store.GetPasswordReset_none (s : Store) (h : String)
    (hno : ∀ p ∈ s.resets, p.HashedToken ≠ h) :
    s.GetPasswordReset h = (default, false, none) := by
  unfold Store.GetPasswordReset
  have : s.resets.find? (fun p => p.HashedToken == h && decide (s.now ≤ p.Expiry)) = none := by
    rw [List.find?_eq_none]
    intro p hp
    simp [hno p hp]
  rw [this]

/-! ## The diagnostic gateway -/

/-- C1: for a POST to `runHandler` whose form decodes, a subprocess is started
only if the command is in the whitelist and `SafeHostnameOrIP` accepts the
target; otherwise the handler returns after the single call `badRequest`
(status 400), no subprocess is started and no page is rendered. -/
theorem runHandler_gate {σ : Type} (env : Env σ) (r : Request) (store : σ) (session : GoMap)
    (hpost : r.Method = MethodPost) (hdec : r.decodeErr = none) :
    (execCalls (runHandler env r ⟨store, session, []⟩).world.calls ≠ [] →
      formValue r "command" ∈ whitelist ∧ env.SafeHostnameOrIP (formValue r "target") = true) ∧
    (formValue r "command" ∉ whitelist ∨ env.SafeHostnameOrIP (formValue r "target") = false →
      (runHandler env r ⟨store, session, []⟩).returned = true ∧
      (∃ err, (runHandler env r ⟨store, session, []⟩).world.calls = [Call.badRequest err]) ∧
      responses (runHandler env r ⟨store, session, []⟩).world.calls = [400] ∧
      execCalls (runHandler env r ⟨store, session, []⟩).world.calls = [] ∧
      pageCalls (runHandler env r ⟨store, session, []⟩).world.calls = []) := by
  have key : formValue r "command" ∉ whitelist ∨
      env.SafeHostnameOrIP (formValue r "target") = false →
      runHandler env r ⟨store, session, []⟩ =
        ⟨World.log ⟨store, session, []⟩ (.badRequest none), true⟩ := by
    rintro (h | h)
    · exact runHandler_reject_command env r _ hpost hdec h
    · exact runHandler_reject_target env r _ hpost hdec h
  constructor
  · intro hex
    by_contra hcon
    have hrej : formValue r "command" ∉ whitelist ∨
        env.SafeHostnameOrIP (formValue r "target") = false := by
      by_cases hc : formValue r "command" ∈ whitelist
      · right
        cases hs : env.SafeHostnameOrIP (formValue r "target")
        · rfl
        · exact absurd ⟨hc, hs⟩ hcon
      · left; exact hc
    rw [key hrej] at hex
    exact hex rfl
  · intro hrej
    rw [key hrej]
    exact ⟨rfl, ⟨none, rfl⟩, rfl, rfl, rfl⟩

/-- C1 exhibited on the command `rm`, which is not in the whitelist. -/
theorem runHandler_gate_witness :
    (postRequest [("command", "rm"), ("target", "8.8.8.8")]).Method = MethodPost ∧
    (postRequest [("command", "rm"), ("target", "8.8.8.8")]).decodeErr = none ∧
    formValue (postRequest [("command", "rm"), ("target", "8.8.8.8")]) "command" ∉ whitelist ∧
    responses (runHandler sampleEnv (postRequest [("command", "rm"), ("target", "8.8.8.8")])
      ⟨emptyStore, [], []⟩).world.calls = [400] ∧
    execCalls (runHandler sampleEnv (postRequest [("command", "rm"), ("target", "8.8.8.8")])
      ⟨emptyStore, [], []⟩).world.calls = [] :=
  ⟨rfl, rfl, by decide,
    ((runHandler_gate sampleEnv (postRequest [("command", "rm"), ("target", "8.8.8.8")])
      emptyStore [] rfl rfl).2 (Or.inl (by decide))).2.2.1,
    ((runHandler_gate sampleEnv (postRequest [("command", "rm"), ("target", "8.8.8.8")])
      emptyStore [] rfl rfl).2 (Or.inl (by decide))).2.2.2.1⟩

/-- C2: for a whitelisted command `c` and a target `t` that `SafeHostnameOrIP`
accepts, `runHandler` starts exactly one subprocess; its program is `c`, its
argument vector is `c` followed by `fixedArgs c ++ [t]`, so that the target is
the single last argument, and the command has no other part. -/
theorem runHandler_argv {σ : Type} (env : Env σ) (r : Request) (store : σ) (session : GoMap)
    (c t : String) (hpost : r.Method = MethodPost) (hdec : r.decodeErr = none)
    (hcmd : formValue r "command" = c) (htgt : formValue r "target" = t)
    (hc : c ∈ whitelist) (ht : env.SafeHostnameOrIP t = true) :
    execCalls (runHandler env r ⟨store, session, []⟩).world.calls =
      [{ Path := c, Args := c :: (fixedArgs c ++ [t]), ctx := none }] ∧
    (c :: (fixedArgs c ++ [t])).getLast? = some t ∧
    (c :: (fixedArgs c ++ [t])).dropLast = c :: fixedArgs c ∧
    validCommands.lookup c = some (fixedArgs c) := by
  subst hcmd htgt
  have hcalls := runHandler_execCalls env r store session hpost hdec hc ht
  refine ⟨hcalls, ?_, ?_, ?_⟩
  · rw [← List.cons_append, List.getLast?_append]
    simp
  · rw [← List.cons_append, List.dropLast_append_of_ne_nil _ (by simp)]
    simp
  · rw [lookup_validCommands, if_pos hc]

/-- C2 exhibited on `command=ping`, `target=8.8.8.8`: the argument vector is
exactly `ping -c 4 8.8.8.8`. -/
theorem runHandler_argv_witness :
    pingRequest.Method = MethodPost ∧ pingRequest.decodeErr = none ∧
    "ping" ∈ whitelist ∧ sampleEnv.SafeHostnameOrIP "8.8.8.8" = true ∧
    execCalls (runHandler sampleEnv pingRequest ⟨emptyStore, [], []⟩).world.calls =
      [{ Path := "ping", Args := ["ping", "-c", "4", "8.8.8.8"], ctx := none }] :=
  ⟨rfl, rfl, by decide, by decide,
    (runHandler_argv sampleEnv pingRequest emptyStore [] "ping" "8.8.8.8" rfl rfl (by decide)
      (by decide) (by decide) (by decide)).1⟩

/-- C3: for a validated command and target and every outcome `(output, err)`
of the subprocess, `runHandler` returns after rendering the result page with
status 200 and `Output` equal to `output` when `err` is nil and to
`output ++ "\n\nError: " ++ err.Error()` otherwise.  The captured output is
always the start of that text.  `badRequest` is never called, and a status
other than 200 can only be the `serverError` for an error of the renderer,
never a consequence of the error of the subprocess. -/
theorem runHandler_result {σ : Type} (env : Env σ) (r : Request) (store : σ) (session : GoMap)
    (output : String) (err : Option GoError)
    (hpost : r.Method = MethodPost) (hdec : r.decodeErr = none)
    (hc : formValue r "command" ∈ whitelist)
    (ht : env.SafeHostnameOrIP (formValue r "target") = true)
    (hout : CombinedOutput (runCmd r) (env.spawn (runCmd r)) = some (output, err)) :
    (runHandler env r ⟨store, session, []⟩).returned = true ∧
    pageCalls (runHandler env r ⟨store, session, []⟩).world.calls =
      [(200, mapSet (newTemplateData env r) "Output" (.str (resultText output err)),
        "pages/lookingglass.tmpl")] ∧
    mapGet (mapSet (newTemplateData env r) "Output" (.str (resultText output err))) "Output" =
      some (.str (resultText output err)) ∧
    (err = none → resultText output err = output) ∧
    (∀ e, err = some e → resultText output err = output ++ "\n\nError: " ++ e) ∧
    (∃ suffix, resultText output err = output ++ suffix) ∧
    (∀ c ∈ (runHandler env r ⟨store, session, []⟩).world.calls, ∀ st, c.status = some st →
      st = 200 ∨ ∃ e, env.pageErr 200 (mapSet (newTemplateData env r) "Output"
        (.str (resultText output err))) "pages/lookingglass.tmpl" = some e ∧
        c = Call.serverError e) ∧
    (env.pageErr 200 (mapSet (newTemplateData env r) "Output"
        (.str (resultText output err))) "pages/lookingglass.tmpl" = none →
      responses (runHandler env r ⟨store, session, []⟩).world.calls = [200]) := by
  have hex := runHandler_exited env r store session output err hpost hdec hc ht hout
  refine ⟨hex.1, runHandler_pageCalls env r store session output err hpost hdec hc ht hout,
    ?_, ?_, ?_, ?_, ?_, ?_⟩
  all_goals try rw [hex.2]
  · simp [mapGet, mapSet, List.lookup]
  · intro h; subst h; rfl
  · intro e h; subst h; rfl
  · cases err with
    | none => exact ⟨"", by simp [resultText]⟩
    | some e => exact ⟨"\n\nError: " ++ e, by simp [resultText, String.append_assoc]⟩
  · intro c hmem st hst
    cases hp : env.pageErr 200 (mapSet (newTemplateData env r) "Output"
      (.str (resultText output err))) "pages/lookingglass.tmpl" with
    | none =>
      rw [hp] at hmem
      simp at hmem
      rcases hmem with h | h <;> subst h <;> simp [Call.status] at hst
      left; exact hst.symm
    | some e =>
      rw [hp] at hmem
      simp at hmem
      rcases hmem with h | h | h <;> subst h <;> simp [Call.status] at hst
      · left; exact hst.symm
      · right; exact ⟨e, rfl, rfl⟩
  · intro hp
    rw [hp]
    simp [responses, Call.status]

/-- C3 exhibited on a subprocess that exits with an error after writing
output: the page is rendered with status 200 and both texts. -/
theorem runHandler_result_witness :
    pingRequest.Method = MethodPost ∧ pingRequest.decodeErr = none ∧
    formValue pingRequest "command" ∈ whitelist ∧
    failingEnv.SafeHostnameOrIP (formValue pingRequest "target") = true ∧
    CombinedOutput (runCmd pingRequest) (failingEnv.spawn (runCmd pingRequest)) =
      some ("ping: unknown host", some "exit status 2") ∧
    responses (runHandler failingEnv pingRequest ⟨emptyStore, [], []⟩).world.calls = [200] ∧
    resultText "ping: unknown host" (some "exit status 2") =
      "ping: unknown host\n\nError: exit status 2" :=
  ⟨rfl, rfl, by decide, by decide, by decide,
    (runHandler_result failingEnv pingRequest emptyStore [] "ping: unknown host"
      (some "exit status 2") rfl rfl (by decide) (by decide) (by decide)).2.2.2.2.2.2.2 rfl,
    by decide⟩

/-- C4 (counterexample): on `command=ping`, `target=8.8.8.8` and a subprocess
that never exits, the command that `runHandler` starts has no deadline, the
handler never returns and no response is written: nothing terminates the
process and the expiry of a timeout is never reported. -/
theorem runHandler_runaway_not_terminated :
    execCalls (runHandler runawayEnv pingRequest ⟨emptyStore, [], []⟩).world.calls =
      [{ Path := "ping", Args := ["ping", "-c", "4", "8.8.8.8"], ctx := none }] ∧
    (∀ cmd ∈ execCalls (runHandler runawayEnv pingRequest ⟨emptyStore, [], []⟩).world.calls,
      cmd.ctx = none) ∧
    (runHandler runawayEnv pingRequest ⟨emptyStore, [], []⟩).returned = false ∧
    responses (runHandler runawayEnv pingRequest ⟨emptyStore, [], []⟩).world.calls = [] ∧
    pageCalls (runHandler runawayEnv pingRequest ⟨emptyStore, [], []⟩).world.calls = [] := by
  decide

/-- C4 (amended): `runHandler` starts the subprocess without a deadline and
waits in `CombinedOutput` for the process to exit and for its output pipe to
reach end of file.  When both happen, at whatever times, the handler returns
and renders the result page with status 200 and the text of C3, the error of
the exit appended; when the process never exits, or its output pipe is never
closed, the handler never returns and makes no further call. -/
theorem runHandler_waits_for_exit {σ : Type} (env : Env σ) (r : Request) (store : σ)
    (session : GoMap) (hpost : r.Method = MethodPost) (hdec : r.decodeErr = none)
    (hc : formValue r "command" ∈ whitelist)
    (ht : env.SafeHostnameOrIP (formValue r "target") = true) :
    execCalls (runHandler env r ⟨store, session, []⟩).world.calls = [runCmd r] ∧
    (runCmd r).ctx = none ∧
    (∀ t u, (env.spawn (runCmd r)).exitAt = some t → (env.spawn (runCmd r)).pipeEOF = some u →
      (runHandler env r ⟨store, session, []⟩).returned = true ∧
      pageCalls (runHandler env r ⟨store, session, []⟩).world.calls =
        [(200, mapSet (newTemplateData env r) "Output"
          (.str (resultText (env.spawn (runCmd r)).output (env.spawn (runCmd r)).err)),
          "pages/lookingglass.tmpl")]) ∧
    ((env.spawn (runCmd r)).exitAt = none ∨ (env.spawn (runCmd r)).pipeEOF = none →
      (runHandler env r ⟨store, session, []⟩).returned = false ∧
      (runHandler env r ⟨store, session, []⟩).world.calls = [Call.Exec (runCmd r)] ∧
      responses (runHandler env r ⟨store, session, []⟩).world.calls = []) := by
  have hrun := runHandler_exec env r ⟨store, session, []⟩ hpost hdec hc ht
  have hctx : (runCmd r).ctx = none := rfl
  refine ⟨?_, hctx, ?_, ?_⟩
  · exact runHandler_execCalls env r store session hpost hdec hc ht
  · intro t u hexit hpipe
    have hout : CombinedOutput (runCmd r) (env.spawn (runCmd r)) =
        some ((env.spawn (runCmd r)).output, (env.spawn (runCmd r)).err) := by
      simp [CombinedOutput, hctx, hexit, hpipe]
    exact ⟨(runHandler_exited env r store session _ _ hpost hdec hc ht hout).1,
      runHandler_pageCalls env r store session _ _ hpost hdec hc ht hout⟩
  · intro hblock
    have hout : CombinedOutput (runCmd r) (env.spawn (runCmd r)) = none := by
      rcases hblock with h | h
      · cases hp : (env.spawn (runCmd r)).pipeEOF <;> simp [CombinedOutput, hctx, h, hp]
      · simp [CombinedOutput, h]
    rw [hout] at hrun
    rw [hrun]
    exact ⟨rfl, rfl, rfl⟩

/-- C4 (amended) exhibited on a subprocess that exits with an error at
time 3 and closes its pipe, after which the handler returns, and on one that
exits and leaves a descendant holding the pipe, on which it never returns. -/
theorem runHandler_waits_for_exit_witness :
    pingRequest.Method = MethodPost ∧ pingRequest.decodeErr = none ∧
    formValue pingRequest "command" ∈ whitelist ∧
    failingEnv.SafeHostnameOrIP (formValue pingRequest "target") = true ∧
    (failingEnv.spawn (runCmd pingRequest)).exitAt = some 3 ∧
    (failingEnv.spawn (runCmd pingRequest)).pipeEOF = some 3 ∧
    (runHandler failingEnv pingRequest ⟨emptyStore, [], []⟩).returned = true ∧
    (runCmd pingRequest).ctx = none ∧
    (orphaningEnv.spawn (runCmd pingRequest)).exitAt = some 1 ∧
    (orphaningEnv.spawn (runCmd pingRequest)).pipeEOF = none ∧
    (runHandler orphaningEnv pingRequest ⟨emptyStore, [], []⟩).returned = false :=
  ⟨rfl, rfl, by decide, by decide, rfl, rfl,
    ((runHandler_waits_for_exit failingEnv pingRequest emptyStore [] rfl rfl (by decide)
      (by decide)).2.2.1 3 3 rfl rfl).1,
    (runHandler_waits_for_exit failingEnv pingRequest emptyStore [] rfl rfl (by decide)
      (by decide)).2.1, rfl, rfl,
    ((runHandler_waits_for_exit orphaningEnv pingRequest emptyStore [] rfl rfl (by decide)
      (by decide)).2.2.2 (Or.inr rfl)).1⟩

/-- C10: in a POST to `runHandler`, every call to `badRequest` receives the
variable `err` of `request.DecodePostForm`.  On both rejection paths (command
not in the whitelist, target refused by `SafeHostnameOrIP`) the form has
decoded, so the error handed over is nil; on the decode-failure path it is
the non-nil decode error. -/
theorem runHandler_badRequest_err {σ : Type} (env : Env σ) (r : Request) (store : σ)
    (session : GoMap) (hpost : r.Method = MethodPost) :
    (∀ e, Call.badRequest e ∈ (runHandler env r ⟨store, session, []⟩).world.calls →
      e = r.decodeErr) ∧
    (r.decodeErr = none →
      formValue r "command" ∉ whitelist ∨ env.SafeHostnameOrIP (formValue r "target") = false →
      (runHandler env r ⟨store, session, []⟩).world.calls = [Call.badRequest none]) ∧
    (∀ e, r.decodeErr = some e →
      (runHandler env r ⟨store, session, []⟩).world.calls = [Call.badRequest (some e)]) := by
  have hfail : ∀ e, r.decodeErr = some e →
      (runHandler env r ⟨store, session, []⟩).world.calls = [Call.badRequest (some e)] := by
    intro e he
    simp [runHandler, hpost, MethodPost_ne_MethodGet, he, World.log]
  have hrej : r.decodeErr = none →
      formValue r "command" ∉ whitelist ∨ env.SafeHostnameOrIP (formValue r "target") = false →
      (runHandler env r ⟨store, session, []⟩).world.calls = [Call.badRequest none] := by
    intro hdec h
    rcases h with h | h
    · rw [runHandler_reject_command env r _ hpost hdec h]; rfl
    · rw [runHandler_reject_target env r _ hpost hdec h]; rfl
  refine ⟨?_, hrej, hfail⟩
  intro e hmem
  cases hdec : r.decodeErr with
  | some e0 =>
    rw [hfail e0 hdec] at hmem
    simpa using hmem
  | none =>
    by_cases hc : formValue r "command" ∈ whitelist
    · cases ht : env.SafeHostnameOrIP (formValue r "target") with
      | false =>
        rw [hrej hdec (Or.inr ht)] at hmem
        simpa using hmem
      | true =>
        exfalso
        rw [runHandler_exec env r _ hpost hdec hc ht] at hmem
        cases hco : CombinedOutput (runCmd r) (env.spawn (runCmd r)) with
        | none =>
          rw [hco] at hmem
          simp [World.log] at hmem
        | some p =>
          obtain ⟨output, err⟩ := p
          rw [hco] at hmem
          simp only [renderPage_calls, World.log] at hmem
          cases hp : env.pageErr StatusOK (runData env r output err) "pages/lookingglass.tmpl" <;>
            rw [hp] at hmem <;> simp at hmem
    · rw [hrej hdec (Or.inl hc)] at hmem
      simpa using hmem

/-- C10 exhibited on a target that starts with a hyphen. -/
theorem runHandler_badRequest_err_witness :
    (postRequest [("command", "ping"), ("target", "-rf /")]).Method = MethodPost ∧
    (postRequest [("command", "ping"), ("target", "-rf /")]).decodeErr = none ∧
    sampleEnv.SafeHostnameOrIP
      (formValue (postRequest [("command", "ping"), ("target", "-rf /")]) "target") = false ∧
    (runHandler sampleEnv (postRequest [("command", "ping"), ("target", "-rf /")])
      ⟨emptyStore, [], []⟩).world.calls = [Call.badRequest none] :=
  ⟨rfl, rfl, by decide,
    (runHandler_badRequest_err sampleEnv (postRequest [("command", "ping"), ("target", "-rf /")])
      emptyStore [] rfl).2.1 rfl (Or.inr (by decide))⟩

/-! ## The account flows -/

/-- C5: for a POST whose form decodes, a password of length (`len`) below 8
or above 72 makes `signup` (user lookup without error) and `passwordReset`
(token found) record the length error on the password field, render the form
again with status 422 and make no mutating call: no call that changes the
store, no session write, store and session unchanged.  A password of length
exactly 8 or exactly 72 gets neither length error, on whatever form either
handler shows again. -/
theorem password_length_window {σ : Type} (env : Env σ) (r : Request) (store : σ)
    (session : GoMap) (hpost : r.Method = MethodPost) (hdec : r.decodeErr = none) :
    (∀ u found, env.db.GetUserByEmail store (formValue r "Email") = (u, found, none) →
      (len (formValue r "Password") < 8 ∨ 72 < len (formValue r "Password") →
        (len (formValue r "Password") < 8 → ("Password", "Password is too short") ∈
          (signupForm env r found).Validator.FieldErrors) ∧
        (72 < len (formValue r "Password") → ("Password", "Password is too long") ∈
          (signupForm env r found).Validator.FieldErrors) ∧
        pageCalls (signup env r ⟨store, session, []⟩).calls =
          [(422, mapSet (newTemplateData env r) "Form"
            (.credentialsForm (signupForm env r found)), "pages/signup.tmpl")] ∧
        (∀ c ∈ (signup env r ⟨store, session, []⟩).calls,
          c.isStoreMutation = false ∧ c.isSessionWrite = false) ∧
        (signup env r ⟨store, session, []⟩).store = store ∧
        (signup env r ⟨store, session, []⟩).session = session) ∧
      (len (formValue r "Password") = 8 ∨ len (formValue r "Password") = 72 →
        ("Password", "Password is too short") ∉ (signupForm env r found).Validator.FieldErrors ∧
        ("Password", "Password is too long") ∉ (signupForm env r found).Validator.FieldErrors ∧
        ∀ p ∈ pageCalls (signup env r ⟨store, session, []⟩).calls,
          p = (422, mapSet (newTemplateData env r) "Form"
            (.credentialsForm (signupForm env r found)), "pages/signup.tmpl"))) ∧
    (∀ pr, env.db.GetPasswordReset store (env.tokenHash r.plaintextToken) = (pr, true, none) →
      (len (formValue r "NewPassword") < 8 ∨ 72 < len (formValue r "NewPassword") →
        (len (formValue r "NewPassword") < 8 → ("NewPassword", "New password is too short") ∈
          (resetForm env r).Validator.FieldErrors) ∧
        (72 < len (formValue r "NewPassword") → ("NewPassword", "New password is too long") ∈
          (resetForm env r).Validator.FieldErrors) ∧
        pageCalls (passwordReset env r ⟨store, session, []⟩).calls =
          [(422, mapSet (mapSet (newTemplateData env r) "Form"
            (.newPasswordForm (resetForm env r))) "PlaintextToken" (.str r.plaintextToken),
            "pages/password-reset.tmpl")] ∧
        (∀ c ∈ (passwordReset env r ⟨store, session, []⟩).calls,
          c.isStoreMutation = false ∧ c.isSessionWrite = false) ∧
        (passwordReset env r ⟨store, session, []⟩).store = store ∧
        (passwordReset env r ⟨store, session, []⟩).session = session) ∧
      (len (formValue r "NewPassword") = 8 ∨ len (formValue r "NewPassword") = 72 →
        ("NewPassword", "New password is too short") ∉ (resetForm env r).Validator.FieldErrors ∧
        ("NewPassword", "New password is too long") ∉ (resetForm env r).Validator.FieldErrors ∧
        ∀ p ∈ pageCalls (passwordReset env r ⟨store, session, []⟩).calls,
          p = (422, mapSet (mapSet (newTemplateData env r) "Form"
            (.newPasswordForm (resetForm env r))) "PlaintextToken" (.str r.plaintextToken),
            "pages/password-reset.tmpl"))) := by
  constructor
  · intro u found hget
    constructor
    · intro hlen
      have hshort : len (formValue r "Password") < 8 → ("Password", "Password is too short") ∈
          (signupForm env r found).Validator.FieldErrors := by
        intro h
        simp [signupForm, mem_CheckField, h]
      have hlong : 72 < len (formValue r "Password") → ("Password", "Password is too long") ∈
          (signupForm env r found).Validator.FieldErrors := by
        intro h
        simp [signupForm, mem_CheckField, h]
      have herr : (signupForm env r found).Validator.HasErrors = true := by
        rcases hlen with h | h
        · exact HasErrors_of_mem _ _ (hshort h)
        · exact HasErrors_of_mem _ _ (hlong h)
      have hrun := signup_invalid env r ⟨store, session, []⟩ u found hpost hdec hget herr
      have hr := renderPage_from_log env store session
        (.GetUserByEmail (formValue r "Email")) StatusUnprocessableEntity
        (signupData env r found) "pages/signup.tmpl"
      rw [← hrun] at hr
      refine ⟨hshort, hlong, ?_, ?_, hr.2.2.1, hr.2.2.2⟩
      · rw [hr.1]; rfl
      · intro c hc
        rcases hr.2.1 c hc with h | h | ⟨e, h⟩ <;> subst h <;> exact ⟨rfl, rfl⟩
    · intro hlen
      refine ⟨?_, ?_, signup_pageCalls env r store session u found hpost hdec hget⟩
      · rcases hlen with h | h <;> simp [signupForm, mem_CheckField, h]
      · rcases hlen with h | h <;> simp [signupForm, mem_CheckField, h]
  · intro pr hget
    constructor
    · intro hlen
      have hshort : len (formValue r "NewPassword") < 8 →
          ("NewPassword", "New password is too short") ∈
          (resetForm env r).Validator.FieldErrors := by
        intro h
        simp [resetForm, mem_CheckField, h]
      have hlong : 72 < len (formValue r "NewPassword") →
          ("NewPassword", "New password is too long") ∈
          (resetForm env r).Validator.FieldErrors := by
        intro h
        simp [resetForm, mem_CheckField, h]
      have herr : (resetForm env r).Validator.HasErrors = true := by
        rcases hlen with h | h
        · exact HasErrors_of_mem _ _ (hshort h)
        · exact HasErrors_of_mem _ _ (hlong h)
      have hrun := passwordReset_invalid env r ⟨store, session, []⟩ pr hpost hdec hget herr
      have hr := renderPage_from_log env store session
        (.GetPasswordReset (env.tokenHash r.plaintextToken)) StatusUnprocessableEntity
        (resetData env r) "pages/password-reset.tmpl"
      rw [← hrun] at hr
      refine ⟨hshort, hlong, ?_, ?_, hr.2.2.1, hr.2.2.2⟩
      · rw [hr.1]; rfl
      · intro c hc
        rcases hr.2.1 c hc with h | h | ⟨e, h⟩ <;> subst h <;> exact ⟨rfl, rfl⟩
    · intro hlen
      refine ⟨?_, ?_, passwordReset_pageCalls env r store session pr hpost hdec hget⟩
      · rcases hlen with h | h <;> simp [resetForm, mem_CheckField, h]
      · rcases hlen with h | h <;> simp [resetForm, mem_CheckField, h]

/-- C5 exhibited on a signup with the five-byte password `short`. -/
theorem password_length_window_witness :
    shortSignup.Method = MethodPost ∧ shortSignup.decodeErr = none ∧
    sampleEnv.db.GetUserByEmail emptyStore (formValue shortSignup "Email") =
      (default, false, none) ∧
    len (formValue shortSignup "Password") < 8 ∧
    ("Password", "Password is too short") ∈
      (signupForm sampleEnv shortSignup false).Validator.FieldErrors ∧
    (signup sampleEnv shortSignup ⟨emptyStore, [], []⟩).store = emptyStore :=
  ⟨rfl, rfl, rfl, by decide,
    (((password_length_window sampleEnv shortSignup emptyStore [] rfl rfl).1 default false
      rfl).1 (Or.inl (by decide))).1 (by decide),
    (((password_length_window sampleEnv shortSignup emptyStore [] rfl rfl).1 default false
      rfl).1 (Or.inl (by decide))).2.2.2.2.1⟩

/-- C7: a POST to `login` whose form decodes to a non-empty email of a
registered user `U` and a non-empty password that matches `U.HashedPassword`
succeeds when no collaborator fails: the handler sets `userID` to `U.ID` in
the session, saves the session and redirects with 303.  The target is the
session value `redirectPathAfterLogin` when that is a string, and the value is
then deleted; it is `/` otherwise.  When the email is not found, or the
password is empty or does not match, the handler renders the form with status
422, makes no call on the session store and leaves the session unchanged. -/
theorem login_contract {σ : Type} (env : Env σ) (r : Request) (store : σ) (session : GoMap)
    (hpost : r.Method = MethodPost) (hdec : r.decodeErr = none) :
    (∀ U, env.db.GetUserByEmail store (formValue r "Email") = (U, true, none) →
      formValue r "Email" ≠ "" → formValue r "Password" ≠ "" →
      env.passwordMatches (formValue r "Password") U.HashedPassword = (true, none) →
      env.sessionGetErr = none → (∀ m, env.sessionSaveErr m = none) →
      ∃ path saved,
        (login env r ⟨store, session, []⟩).calls =
          [Call.GetUserByEmail (formValue r "Email"), Call.SessionGet, Call.SessionSave saved,
            Call.Redirect path 303] ∧
        (login env r ⟨store, session, []⟩).session = saved ∧
        (login env r ⟨store, session, []⟩).store = store ∧
        mapGet saved "userID" = some (.int U.ID) ∧
        (∀ p, mapGet session "redirectPathAfterLogin" = some (.str p) →
          path = p ∧ mapGet saved "redirectPathAfterLogin" = none) ∧
        ((∀ p, mapGet session "redirectPathAfterLogin" ≠ some (.str p)) →
          path = "/" ∧ saved = mapSet session "userID" (.int U.ID)) ∧
        (∀ k, k ≠ "userID" → k ≠ "redirectPathAfterLogin" → mapGet saved k = mapGet session k)) ∧
    (∀ U found b, env.db.GetUserByEmail store (formValue r "Email") = (U, found, none) →
      (found = true → env.passwordMatches (formValue r "Password") U.HashedPassword = (b, none)) →
      found = false ∨ formValue r "Password" = "" ∨ b = false →
      ∃ form : CredentialsForm,
        pageCalls (login env r ⟨store, session, []⟩).calls =
          [(422, mapSet (newTemplateData env r) "Form" (.credentialsForm form),
            "pages/login.tmpl")] ∧
        form.Validator.HasErrors = true ∧
        (found = false →
          ("Email", "Email address could not be found") ∈ form.Validator.FieldErrors) ∧
        (found = true → formValue r "Password" = "" →
          ("Password", "Password is required") ∈ form.Validator.FieldErrors) ∧
        (found = true → b = false →
          ("Password", "Password is incorrect") ∈ form.Validator.FieldErrors) ∧
        (∀ c ∈ (login env r ⟨store, session, []⟩).calls,
          c.isSession = false ∧ c.isStoreMutation = false) ∧
        (login env r ⟨store, session, []⟩).session = session ∧
        (login env r ⟨store, session, []⟩).store = store) := by
  constructor
  · intro U hget hemail hpw hmatch hsg hss
    rw [login_success env r store session U hpost hdec hget hemail hpw hmatch hsg hss]
    have hne : ("redirectPathAfterLogin" : String) ≠ "userID" := by decide
    have hget0 : mapGet (mapSet session "userID" (.int U.ID)) "redirectPathAfterLogin" =
        mapGet session "redirectPathAfterLogin" := mapGet_mapSet_ne _ _ _ _ hne
    refine ⟨loginRedirect session U.ID, loginSession session U.ID, rfl, rfl, rfl, ?_, ?_, ?_, ?_⟩
    · unfold loginSession
      split
      · rw [mapGet_mapDelete_ne _ _ _ (fun h => hne h.symm), mapGet_mapSet_self]
      · rw [mapGet_mapSet_self]
    · intro p hp
      unfold loginSession loginRedirect
      rw [hget0, hp]
      simp [assertString, mapGet_mapDelete_self]
    · intro hno
      have hfalse : (assertString (mapGet session "redirectPathAfterLogin")).2 = false := by
        cases hv : mapGet session "redirectPathAfterLogin" with
        | none => rfl
        | some v =>
          cases v with
          | str p => exact absurd hv (hno p)
          | _ => rfl
      unfold loginSession loginRedirect
      rw [hget0, hfalse]
      simp
    · intro k hk1 hk2
      unfold loginSession
      split
      · rw [mapGet_mapDelete_ne _ _ _ hk2, mapGet_mapSet_ne _ _ _ _ hk1]
      · rw [mapGet_mapSet_ne _ _ _ _ hk1]
  · intro U found b hget hm hbad
    have hnf : found = false →
        ("Email", "Email address could not be found") ∈
          (loginForm r found b).Validator.FieldErrors := by
      intro h; subst h
      simp [loginForm, mem_CheckField]
    have hpe : found = true → formValue r "Password" = "" →
        ("Password", "Password is required") ∈ (loginForm r found b).Validator.FieldErrors := by
      intro h h2; subst h
      simp [loginForm, mem_CheckField, h2]
    have hpi : found = true → b = false →
        ("Password", "Password is incorrect") ∈ (loginForm r found b).Validator.FieldErrors := by
      intro h h2; subst h; subst h2
      simp [loginForm, mem_CheckField]
    have herr : (loginForm r found b).Validator.HasErrors = true := by
      cases hf : found with
      | false => exact HasErrors_of_mem _ _ (hf ▸ hnf hf)
      | true =>
        rcases hbad with h | h | h
        · rw [hf] at h; cases h
        · exact HasErrors_of_mem _ _ (hf ▸ hpe hf h)
        · exact HasErrors_of_mem _ _ (hf ▸ hpi hf h)
    have hrun := login_invalid env r ⟨store, session, []⟩ U found b hpost hdec hget hm herr
    have hr := renderPage_from_log env store session
      (.GetUserByEmail (formValue r "Email")) StatusUnprocessableEntity
      (mapSet (newTemplateData env r) "Form" (.credentialsForm (loginForm r found b)))
      "pages/login.tmpl"
    rw [← hrun] at hr
    refine ⟨loginForm r found b, ?_, herr, hnf, hpe, hpi, ?_, hr.2.2.2, hr.2.2.1⟩
    · rw [hr.1]; rfl
    · intro c hc
      rcases hr.2.1 c hc with h | h | ⟨e, h⟩ <;> subst h <;> exact ⟨rfl, rfl⟩

/-- C7 exhibited on the user of `annStore`, whose session holds no redirect
target: the session is bound to user 7 and the redirect goes to `/`. -/
theorem login_contract_witness :
    annLogin.Method = MethodPost ∧ annLogin.decodeErr = none ∧
    sampleEnv.db.GetUserByEmail annStore (formValue annLogin "Email") =
      (⟨7, "ann@example.org", "hash:correcthorsebattery"⟩, true, none) ∧
    (∃ path saved,
      (login sampleEnv annLogin ⟨annStore, [], []⟩).calls =
        [Call.GetUserByEmail "ann@example.org", Call.SessionGet, Call.SessionSave saved,
          Call.Redirect path 303] ∧
      mapGet saved "userID" = some (.int 7)) :=
  ⟨rfl, rfl, by decide,
    match (login_contract sampleEnv annLogin annStore [] rfl rfl).1
      ⟨7, "ann@example.org", "hash:correcthorsebattery"⟩ (by decide) (by decide) (by decide)
      (by decide) rfl (fun _ => rfl) with
    | ⟨path, saved, h1, _, _, h4, _⟩ => ⟨path, saved, h1, h4⟩⟩

/-- C8 (counterexample): when saving the session fails, `logout` answers
with `serverError` (status 500) and makes no redirect. -/
theorem logout_save_error_no_redirect :
    (logout saveFailsEnv (postRequest []) ⟨emptyStore, boundSession, []⟩).calls =
      [Call.SessionGet, Call.SessionSave [("redirectPathAfterLogin", .str "/run")],
        Call.serverError "securecookie: the value is too long"] ∧
    responses (logout saveFailsEnv (postRequest []) ⟨emptyStore, boundSession, []⟩).calls =
      [500] ∧
    Call.Redirect "/" 303 ∉
      (logout saveFailsEnv (postRequest []) ⟨emptyStore, boundSession, []⟩).calls := by
  decide

/-- C8 (amended): when `sessionStore.Get` and `session.Save` return no error,
`logout` deletes `userID` from the session, leaves every other session value
and the store unchanged, saves the session and redirects with 303 to `/`; on
a session without `userID` the session values are unchanged, and a second
logout leaves the session as the first one did.  When `sessionStore.Get`
returns an error the handler calls `serverError` and touches nothing; when
`session.Save` returns an error the handler calls `serverError` after the
save.  In both cases it makes no redirect: a redirect is made only when both
calls succeed. -/
theorem logout_clears_userID {σ : Type} (env : Env σ) (r r2 : Request) (store : σ)
    (session : GoMap) :
    (env.sessionGetErr = none → env.sessionSaveErr (mapDelete session "userID") = none →
      (logout env r ⟨store, session, []⟩).calls =
        [Call.SessionGet, Call.SessionSave (mapDelete session "userID"),
          Call.Redirect "/" 303] ∧
      responses (logout env r ⟨store, session, []⟩).calls = [303] ∧
      (logout env r ⟨store, session, []⟩).session = mapDelete session "userID" ∧
      mapGet (logout env r ⟨store, session, []⟩).session "userID" = none ∧
      (∀ k, k ≠ "userID" →
        mapGet (logout env r ⟨store, session, []⟩).session k = mapGet session k) ∧
      (logout env r ⟨store, session, []⟩).store = store ∧
      (mapGet session "userID" = none →
        (logout env r ⟨store, session, []⟩).session = session) ∧
      (logout env r2 (logout env r ⟨store, session, []⟩)).session =
        (logout env r ⟨store, session, []⟩).session ∧
      responses (logout env r2 ⟨store, (logout env r ⟨store, session, []⟩).session, []⟩).calls =
        [303]) ∧
    (∀ e, env.sessionGetErr = some e →
      (logout env r ⟨store, session, []⟩).calls = [Call.SessionGet, Call.serverError e] ∧
      responses (logout env r ⟨store, session, []⟩).calls = [500] ∧
      (logout env r ⟨store, session, []⟩).session = session ∧
      (logout env r ⟨store, session, []⟩).store = store) ∧
    (∀ e, env.sessionGetErr = none →
      env.sessionSaveErr (mapDelete session "userID") = some e →
      (logout env r ⟨store, session, []⟩).calls =
        [Call.SessionGet, Call.SessionSave (mapDelete session "userID"),
          Call.serverError e] ∧
      responses (logout env r ⟨store, session, []⟩).calls = [500] ∧
      (logout env r ⟨store, session, []⟩).store = store) ∧
    (∀ url code, Call.Redirect url code ∈ (logout env r ⟨store, session, []⟩).calls →
      env.sessionGetErr = none ∧ env.sessionSaveErr (mapDelete session "userID") = none ∧
      url = "/" ∧ code = 303) := by
  have hget : ∀ e, env.sessionGetErr = some e →
      logout env r ⟨store, session, []⟩ =
        ⟨store, session, [Call.SessionGet, Call.serverError e]⟩ := by
    intro e he
    simp [logout, he, World.log]
  have hsave : ∀ e, env.sessionGetErr = none →
      env.sessionSaveErr (mapDelete session "userID") = some e →
      logout env r ⟨store, session, []⟩ =
        ⟨store, mapDelete session "userID",
          [Call.SessionGet, Call.SessionSave (mapDelete session "userID"),
            Call.serverError e]⟩ := by
    intro e hg he
    simp [logout, hg, he, World.log]
  refine ⟨?_, ?_, ?_, ?_⟩
  · intro hsg hss
    have h1 := logout_ok env r ⟨store, session, []⟩ hsg hss
    have hss2 : env.sessionSaveErr (mapDelete (mapDelete session "userID") "userID") = none := by
      rw [mapDelete_idem]; exact hss
    rw [h1]
    have h2 := logout_ok env r2 ⟨store, mapDelete session "userID",
      [] ++ [Call.SessionGet, Call.SessionSave (mapDelete session "userID"),
        Call.Redirect "/" 303]⟩ hsg hss2
    have h3 := logout_ok env r2 ⟨store, mapDelete session "userID", []⟩ hsg hss2
    refine ⟨rfl, rfl, rfl, mapGet_mapDelete_self _ _, fun k hk => mapGet_mapDelete_ne _ _ _ hk,
      rfl, fun h => mapDelete_absent _ _ h, ?_, ?_⟩
    · rw [h2]; exact mapDelete_idem _ _
    · rw [h3]; rfl
  · intro e he
    rw [hget e he]
    exact ⟨rfl, rfl, rfl, rfl⟩
  · intro e hg he
    rw [hsave e hg he]
    exact ⟨rfl, rfl, rfl⟩
  · intro url code hmem
    cases hg : env.sessionGetErr with
    | some e =>
      rw [hget e hg] at hmem
      simp at hmem
    | none =>
      cases hs : env.sessionSaveErr (mapDelete session "userID") with
      | some e =>
        rw [hsave e hg hs] at hmem
        simp at hmem
      | none =>
        rw [logout_ok env r ⟨store, session, []⟩ hg hs] at hmem
        simp at hmem
        exact ⟨rfl, rfl, hmem.1, hmem.2⟩

/-- C8 (amended) exhibited on a session bound to user 7 with a pending
redirect target, which stays in the session, and on a session store whose
`Get` fails, where the handler answers 500 and leaves the session as it was. -/
theorem logout_clears_userID_witness :
    sampleEnv.sessionGetErr = none ∧
    sampleEnv.sessionSaveErr (mapDelete boundSession "userID") = none ∧
    (logout sampleEnv (postRequest []) ⟨emptyStore, boundSession, []⟩).session =
      [("redirectPathAfterLogin", .str "/run")] ∧
    responses (logout sampleEnv (postRequest []) ⟨emptyStore, boundSession, []⟩).calls = [303] ∧
    getFailsEnv.sessionGetErr = some "securecookie: the value is not valid" ∧
    (logout getFailsEnv (postRequest []) ⟨emptyStore, boundSession, []⟩).calls =
      [Call.SessionGet, Call.serverError "securecookie: the value is not valid"] ∧
    (logout getFailsEnv (postRequest []) ⟨emptyStore, boundSession, []⟩).session =
      boundSession :=
  ⟨rfl, rfl,
    ((logout_clears_userID sampleEnv (postRequest []) (postRequest []) emptyStore boundSession).1
      rfl rfl).2.2.1.trans (by decide),
    ((logout_clears_userID sampleEnv (postRequest []) (postRequest []) emptyStore boundSession).1
      rfl rfl).2.1,
    rfl,
    ((logout_clears_userID getFailsEnv (postRequest []) (postRequest []) emptyStore
      boundSession).2.1 _ rfl).1,
    ((logout_clears_userID getFailsEnv (postRequest []) (postRequest []) emptyStore
      boundSession).2.1 _ rfl).2.2.1⟩

/-- C9: for a POST to `forgottenPassword` whose form decodes to an email that
`GetUserByEmail` does not find (without error), the handler records a
validation error on the field `Email`, renders the form with status 422,
generates no token, inserts no password-reset record and never calls
`mailer.Send`.  Conversely, in every run, a call of `mailer.Send` comes right
after a call of `InsertPasswordReset` that returned no error; its recipient is
the email of the user found, the record was inserted with a TTL of 24 hours
and with the hash `token.Hash` of the plaintext token put in the mail data. -/
theorem forgottenPassword_mail {σ : Type} (env : Env σ) (r : Request) (store : σ)
    (session : GoMap) :
    (r.Method = MethodPost → r.decodeErr = none →
      ∀ U, env.db.GetUserByEmail store (formValue r "Email") = (U, false, none) →
        ("Email", "No matching email found") ∈
          (forgottenForm env r false).Validator.FieldErrors ∧
        pageCalls (forgottenPassword env r ⟨store, session, []⟩).calls =
          [(422, mapSet (newTemplateData env r) "Form" (.emailForm (forgottenForm env r false)),
            "pages/forgotten-password.tmpl")] ∧
        Call.TokenNew ∉ (forgottenPassword env r ⟨store, session, []⟩).calls ∧
        (∀ h u ttl, Call.InsertPasswordReset h u ttl ∉
          (forgottenPassword env r ⟨store, session, []⟩).calls) ∧
        (∀ rcpt d t, Call.MailerSend rcpt d t ∉
          (forgottenPassword env r ⟨store, session, []⟩).calls) ∧
        (forgottenPassword env r ⟨store, session, []⟩).store = store) ∧
    (∀ rcpt d t, Call.MailerSend rcpt d t ∈ (forgottenPassword env r ⟨store, session, []⟩).calls →
      ∃ U post,
        env.db.GetUserByEmail store (formValue r "Email") = (U, true, none) ∧
        rcpt = U.Email ∧
        mapGet d "PlaintextToken" = some (.str env.tokenNew) ∧
        (env.db.InsertPasswordReset store (env.tokenHash env.tokenNew) U.ID (24 * Hour)).1 =
          none ∧
        (forgottenPassword env r ⟨store, session, []⟩).calls =
          [Call.GetUserByEmail (formValue r "Email"), Call.TokenNew,
            Call.InsertPasswordReset (env.tokenHash env.tokenNew) U.ID (24 * Hour),
            Call.MailerSend rcpt d t] ++ post ∧
        24 * Hour = 24 * 60 * 60 * 1000000000) := by
  constructor
  · intro hpost hdec U hget
    have hm : ("Email", "No matching email found") ∈
        (forgottenForm env r false).Validator.FieldErrors := by
      simp [forgottenForm, mem_CheckField]
    have hrun := forgottenPassword_invalid env r ⟨store, session, []⟩ U false hpost hdec hget
      (HasErrors_of_mem _ _ hm)
    have hr := renderPage_from_log env store session
      (.GetUserByEmail (formValue r "Email")) StatusUnprocessableEntity
      (mapSet (newTemplateData env r) "Form" (.emailForm (forgottenForm env r false)))
      "pages/forgotten-password.tmpl"
    rw [← hrun] at hr
    refine ⟨hm, ?_, ?_, ?_, ?_, hr.2.2.1⟩
    · rw [hr.1]; rfl
    · intro hc
      rcases hr.2.1 _ hc with h | h | ⟨e, h⟩ <;> cases h
    · intro h u ttl hc
      rcases hr.2.1 _ hc with h | h | ⟨e, h⟩ <;> cases h
    · intro rcpt d t hc
      rcases hr.2.1 _ hc with h | h | ⟨e, h⟩ <;> cases h
  · intro rcpt d t hmem
    by_cases hget0 : r.Method = MethodGet
    · exfalso
      simp only [forgottenPassword, hget0, if_true, renderPage_calls] at hmem
      cases hp : env.pageErr StatusOK
        (mapSet (newTemplateData env r) "Form" (.emailForm {})) "pages/forgotten-password.tmpl" <;>
        rw [hp] at hmem <;> simp at hmem
    by_cases hpost : r.Method = MethodPost
    · cases hdec : r.decodeErr with
      | some e =>
        exfalso
        simp [forgottenPassword, hpost, MethodPost_ne_MethodGet, hdec, World.log] at hmem
      | none =>
        rcases hget : env.db.GetUserByEmail store (formValue r "Email") with ⟨U, found, err⟩
        cases err with
        | some e =>
          exfalso
          simp [forgottenPassword, hpost, MethodPost_ne_MethodGet, hdec, World.log, hget] at hmem
        | none =>
          cases herr : (forgottenForm env r found).Validator.HasErrors with
          | true =>
            exfalso
            rw [forgottenPassword_invalid env r ⟨store, session, []⟩ U found hpost hdec hget
              herr] at hmem
            rcases (renderPage_from_log env store session _ _ _ _).2.1 _ hmem with
              h | h | ⟨e, h⟩ <;> cases h
          | false =>
            have hfound := forgottenForm_valid env r found herr
            subst hfound
            have hcalls := forgottenPassword_valid env r store session U true hpost hdec hget
              herr
            rw [hcalls] at hmem ⊢
            cases hins : (env.db.InsertPasswordReset store (env.tokenHash env.tokenNew) U.ID
              (24 * Hour)).1 with
            | some e =>
              exfalso
              rw [hins] at hmem
              simp at hmem
            | none =>
              rw [hins] at hmem
              simp only [List.cons_append, List.nil_append] at hmem ⊢
              have hsend : Call.MailerSend rcpt d t =
                  Call.MailerSend U.Email (mailData env) "forgotten-password.tmpl" := by
                cases hs : env.mailerSendErr U.Email (mailData env) "forgotten-password.tmpl" <;>
                  rw [hs] at hmem <;> simp at hmem <;>
                  simp [hmem]
              injection hsend with h1 h2 h3
              subst h1 h2 h3
              exact ⟨U, _, rfl, rfl, mapGet_mapSet_self _ _ _, hins, rfl, by decide⟩
    · exfalso
      simp [forgottenPassword, hget0, hpost] at hmem

/-- C9 exhibited on an email that is not registered: no mail is sent. -/
theorem forgottenPassword_mail_witness :
    strangerForgotten.Method = MethodPost ∧ strangerForgotten.decodeErr = none ∧
    sampleEnv.db.GetUserByEmail annStore (formValue strangerForgotten "Email") =
      (default, false, none) ∧
    (∀ rcpt d t, Call.MailerSend rcpt d t ∉
      (forgottenPassword sampleEnv strangerForgotten ⟨annStore, [], []⟩).calls) ∧
    (forgottenPassword sampleEnv strangerForgotten ⟨annStore, [], []⟩).store = annStore :=
  ⟨rfl, rfl, by decide,
    ((forgottenPassword_mail sampleEnv strangerForgotten annStore []).1 rfl rfl default
      (by decide)).2.2.2.2.1,
    ((forgottenPassword_mail sampleEnv strangerForgotten annStore []).1 rfl rfl default
      (by decide)).2.2.2.2.2⟩

/-- C6: over the store model, after a successful POST to `passwordReset` with
a token found for user `u` (valid new password, no collaborator error) the
hash of `u` is the new one and no reset record of `u` is left.  Any request to
`passwordReset` made on a later state of the store, GET or POST, that
presents a token of `u` (the same one or another one issued to `u` before)
renders the page with `InvalidLink = true` and status 422, makes no call that
changes the store and leaves the store unchanged. -/
theorem reset_token_single_use (env : Env Store) (r : Request) (s : Store) (session : GoMap)
    (pr : PasswordReset) (hashed : String) (hdb : env.db = storeDB)
    (hpost : r.Method = MethodPost) (hdec : r.decodeErr = none)
    (hfound : s.GetPasswordReset (env.tokenHash r.plaintextToken) = (pr, true, none))
    (hvalid : (resetForm env r).Validator.HasErrors = false)
    (hhash : env.passwordHash (formValue r "NewPassword") = (hashed, none)) :
    (passwordReset env r ⟨s, session, []⟩).calls =
      [Call.GetPasswordReset (env.tokenHash r.plaintextToken),
        Call.UpdateUserHashedPassword pr.UserID hashed,
        Call.DeletePasswordResets pr.UserID,
        Call.Redirect "/password-reset-confirmation" 303] ∧
    (passwordReset env r ⟨s, session, []⟩).store.users =
      s.users.map (fun u => if u.ID = pr.UserID then ⟨u.ID, u.Email, hashed⟩ else u) ∧
    (∀ u ∈ (passwordReset env r ⟨s, session, []⟩).store.users,
      u.ID = pr.UserID → u.HashedPassword = hashed) ∧
    (∀ p ∈ (passwordReset env r ⟨s, session, []⟩).store.resets, p.UserID ≠ pr.UserID) ∧
    (∀ (r2 : Request) (later : Store) (session2 : GoMap),
      later.noneIssuedSince (passwordReset env r ⟨s, session, []⟩).store
        (env.tokenHash r2.plaintextToken) →
      s.tokenOf (env.tokenHash r2.plaintextToken) pr.UserID →
      pageCalls (passwordReset env r2 ⟨later, session2, []⟩).calls =
        [(422, mapSet (newTemplateData env r2) "InvalidLink" (.bool true),
          "pages/password-reset.tmpl")] ∧
      mapGet (mapSet (newTemplateData env r2) "InvalidLink" (.bool true)) "InvalidLink" =
        some (.bool true) ∧
      (∀ c ∈ (passwordReset env r2 ⟨later, session2, []⟩).calls, c.isStoreMutation = false) ∧
      (passwordReset env r2 ⟨later, session2, []⟩).store = later) := by
  have hG : env.db.GetPasswordReset = Store.GetPasswordReset := by rw [hdb]; rfl
  have hU : env.db.UpdateUserHashedPassword = Store.UpdateUserHashedPassword := by rw [hdb]; rfl
  have hD : env.db.DeletePasswordResets = Store.DeletePasswordResets := by rw [hdb]; rfl
  have hrun := passwordReset_success env r s session pr hashed
    (s.UpdateUserHashedPassword pr.UserID hashed).2
    ((s.UpdateUserHashedPassword pr.UserID hashed).2.DeletePasswordResets pr.UserID).2
    hpost hdec (by rw [hG]; exact hfound) hvalid hhash (by rw [hU]; rfl) (by rw [hD]; rfl)
  rw [hrun]
  refine ⟨rfl, rfl, ?_, ?_, ?_⟩
  · intro u hu hid
    simp only [Store.DeletePasswordResets, Store.UpdateUserHashedPassword, List.mem_map] at hu
    obtain ⟨u0, _, hu0⟩ := hu
    by_cases h0 : u0.ID = pr.UserID
    · rw [if_pos h0] at hu0; rw [← hu0]
    · rw [if_neg h0] at hu0; rw [← hu0] at hid; exact absurd hid h0
  · intro p hp
    simp only [Store.DeletePasswordResets, Store.UpdateUserHashedPassword, List.mem_filter] at hp
    simpa using hp.2
  · intro r2 later session2 hlater htok
    have hno : ∀ p ∈ later.resets, p.HashedToken ≠ env.tokenHash r2.plaintextToken := by
      intro p hp heq
      rcases hlater p hp with h | h
      · simp only [Store.DeletePasswordResets, Store.UpdateUserHashedPassword,
          List.mem_filter] at h
        have hne : p.UserID ≠ pr.UserID := by simpa using h.2
        exact hne (htok p h.1 heq)
      · exact h heq
    have hget2 : env.db.GetPasswordReset later (env.tokenHash r2.plaintextToken) =
        (default, false, none) := by
      rw [hG]; exact Store.GetPasswordReset_none later _ hno
    have hrun2 := passwordReset_notFound env r2 ⟨later, session2, []⟩ default hget2
    have hr := renderPage_from_log env later session2
      (.GetPasswordReset (env.tokenHash r2.plaintextToken)) StatusUnprocessableEntity
      (mapSet (newTemplateData env r2) "InvalidLink" (.bool true)) "pages/password-reset.tmpl"
    rw [← hrun2] at hr
    refine ⟨?_, mapGet_mapSet_self _ _ _, ?_, hr.2.2.1⟩
    · rw [hr.1]; rfl
    · intro c hc
      rcases hr.2.1 c hc with h | h | ⟨e, h⟩ <;> subst h <;> rfl

/-- C6 exhibited on a store with two tokens of user 7: after the reset with
the token `t0ken`, a request with the token `other` gets the page of the
invalid link. -/
theorem reset_token_single_use_witness :
    sampleEnv.db = storeDB ∧ resetPost.Method = MethodPost ∧ resetPost.decodeErr = none ∧
    resetStore.GetPasswordReset (sampleEnv.tokenHash resetPost.plaintextToken) =
      (⟨"sha256:t0ken", 7, 100⟩, true, none) ∧
    (resetForm sampleEnv resetPost).Validator.HasErrors = false ∧
    (passwordReset sampleEnv resetPost ⟨resetStore, [], []⟩).store = resetStoreAfter ∧
    resetStore.tokenOf (sampleEnv.tokenHash resetOther.plaintextToken) 7 ∧
    pageCalls (passwordReset sampleEnv resetOther ⟨resetStoreAfter, [], []⟩).calls =
      [(422, mapSet (newTemplateData sampleEnv resetOther) "InvalidLink" (.bool true),
        "pages/password-reset.tmpl")] :=
  ⟨rfl, rfl, rfl, by decide, by decide, by decide, by decide,
    ((reset_token_single_use sampleEnv resetPost resetStore [] ⟨"sha256:t0ken", 7, 100⟩
      "hash:staplebattery" rfl rfl rfl (by decide) (by decide) (by decide)).2.2.2.2
      resetOther resetStoreAfter []
      (by intro p hp; cases hp) (by decide)).1⟩

end LookingGlass
